import Mathlib

/-!
ICE candidate-gathering coordinator of one stream (`icestream.c`)

A shallow embedding of `ext/webrtc/icestream.c`.  The stream object is a record
of the fields the functions read and write; every call returns the new stream
together with the list of effects it performed on its collaborators (the
engine calls and the calls on transports), in program order.

What the environment decides is an argument of the call:
* what `g_weak_ref_get (&stream->ice_weak)` yields (`none` = the owner is gone),
* what `nice_agent_gather_candidates` returns.

Reference counting (`gst_object_ref` / `gst_object_unref`) has no effect on the
values below and is left out.
-/

namespace IceStream

/-! ## Data model -/

/-- The C enum `GstWebRTCICEComponent`, as its integer code. -/
abbrev GstWebRTCICEComponent := Nat

/-- Modelled from the spec: the enum constant for the RTP component (its
declaration is in a header that is not part of the sources). -/
def GST_WEBRTC_ICE_COMPONENT_RTP : GstWebRTCICEComponent := 0

/-- Modelled from the spec: the enum constant for the RTCP component (its
declaration is in a header that is not part of the sources). -/
def GST_WEBRTC_ICE_COMPONENT_RTCP : GstWebRTCICEComponent := 1

/-- The two values of `GstWebRTCICEGatheringState` that `icestream.c` passes to
`gst_webrtc_ice_transport_gathering_state_change`. -/
inductive GstWebRTCICEGatheringState where
  | GATHERING
  | COMPLETE
deriving DecidableEq, Repr

/-- A transport object: `ptr` is the object's address (its identity), and
`component` the value of its "component" property. -/
structure GstWebRTCICETransport where
  ptr : Nat
  component : GstWebRTCICEComponent
deriving DecidableEq, Repr

/-- The fields of the owning `GstWebRTCICE` object that `icestream.c` reads. -/
structure GstWebRTCICE where
  min_rtp_port : Nat
  max_rtp_port : Nat
deriving DecidableEq, Repr

/-- The record `struct _GstWebRTCICEStreamPrivate`. -/
structure GstWebRTCICEStreamPrivate where
  gathered : Bool
  transports : List GstWebRTCICETransport
  gathering_started : Bool
  candidate_gathering_done_id : Nat
deriving DecidableEq, Repr

/-- The stream object: its `stream_id` and its private record.  The field
`ice_weak` is a weak pointer into the environment; what it resolves to is an
argument of the calls that resolve it. -/
structure GstWebRTCICEStream where
  stream_id : Nat
  priv : GstWebRTCICEStreamPrivate
deriving DecidableEq, Repr

/-- The libnice constant `NICE_COMPONENT_TYPE_RTP`. -/
def NICE_COMPONENT_TYPE_RTP : Nat := 1

/-- One call made on a collaborator. -/
inductive Effect where
  /-- The call `gst_webrtc_ice_transport_gathering_state_change (trans, state)`. -/
  | gathering_state_change (trans : GstWebRTCICETransport)
      (state : GstWebRTCICEGatheringState)
  /-- The call `nice_agent_set_port_range (agent, stream_id, component, min, max)`. -/
  | set_port_range (stream_id component min_port max_port : Nat)
  /-- The call `nice_agent_gather_candidates (agent, stream_id)`. -/
  | gather_candidates (stream_id : Nat)
  /-- The call `gst_webrtc_nice_transport_update_buffer_size (trans)`. -/
  | update_buffer_size (trans : GstWebRTCICETransport)
deriving DecidableEq, Repr

/-- How a call ends: it returns a `gboolean`, or a `g_assert` fails and the
process aborts. -/
inductive Outcome where
  | returned (ret : Bool)
  | assertion_failed
deriving DecidableEq, Repr

/-! ## Construction -/

/-- The stream as `gst_webrtc_ice_stream_new` leaves it for a live owner: the
private record is zero-initialised by the object system, `stream_id` is the
construct-only property, and `gst_webrtc_ice_stream_constructed` stores the
handler id `handler_id` that `g_signal_connect_data` returned. -/
def gst_webrtc_ice_stream_new (stream_id handler_id : Nat) : GstWebRTCICEStream :=
  { stream_id := stream_id
    priv :=
      { gathered := false
        transports := []
        gathering_started := false
        candidate_gathering_done_id := handler_id } }

/-! ## `gst_webrtc_ice_stream_find_transport` -/

/-- Modelled from the spec: `gst_webrtc_nice_transport_new` is defined in
`nicetransport.c`, which is not part of the sources.  It constructs a new
Transport bound to the stream and `component`.  `heap` is the next unused
object address; the new object takes it. -/
def gst_webrtc_nice_transport_new (heap : Nat) (component : GstWebRTCICEComponent) :
    GstWebRTCICETransport × Nat :=
  ({ ptr := heap, component := component }, heap + 1)

/-- The search loop of `gst_webrtc_ice_stream_find_transport`: the first
transport of the list whose component is `component`. -/
def find_transport_loop (component : GstWebRTCICEComponent) :
    List GstWebRTCICETransport → Option GstWebRTCICETransport
  | [] => none
  | t :: l =>
    if component = t.component then some t
    else find_transport_loop component l

/-- The function `gst_webrtc_ice_stream_find_transport`: returns the transport, the
stream and the heap after the call. -/
def gst_webrtc_ice_stream_find_transport (heap : Nat) (stream : GstWebRTCICEStream)
    (component : GstWebRTCICEComponent) :
    GstWebRTCICETransport × GstWebRTCICEStream × Nat :=
  match find_transport_loop component stream.priv.transports with
  | some t => (t, stream, heap)
  | none =>
    let (ret, heap1) := gst_webrtc_nice_transport_new heap component
    (ret,
      { stream with priv := { stream.priv with transports := ret :: stream.priv.transports } },
      heap1)

/-! ## `_on_candidate_gathering_done` -/

/-- The handler `_on_candidate_gathering_done (agent, stream_id, ice_weak)`.
`ice_weak` is what the weak pointer to the stream resolves to.  Returns the
stream after the call (`none` when there was none) and the calls made. -/
def _on_candidate_gathering_done (stream_id : Nat) (ice_weak : Option GstWebRTCICEStream) :
    Option GstWebRTCICEStream × List Effect :=
  match ice_weak with
  | none => (none, [])
  | some ice =>
    if stream_id ≠ ice.stream_id then (some ice, [])
    else
      (some { ice with priv := { ice.priv with gathered := true } },
        ice.priv.transports.map
          (fun trans => Effect.gathering_state_change trans GstWebRTCICEGatheringState.COMPLETE))

/-! ## `gst_webrtc_ice_stream_gather_candidates` -/

/-- The function `gst_webrtc_ice_stream_gather_candidates`.  `ice` is what
`g_weak_ref_get (&stream->ice_weak)` yields and `engine_result` what
`nice_agent_gather_candidates` returns when it is called.  Returns the outcome,
the stream after the call and the calls made, in order. -/
def gst_webrtc_ice_stream_gather_candidates (ice : Option GstWebRTCICE) (engine_result : Bool)
    (stream : GstWebRTCICEStream) : Outcome × GstWebRTCICEStream × List Effect :=
  if stream.priv.gathered then (Outcome.returned true, stream, [])
  else
    let started := stream.priv.transports.map
      (fun trans => Effect.gathering_state_change trans GstWebRTCICEGatheringState.GATHERING)
    match ice with
    | none => (Outcome.assertion_failed, stream, started)
    | some ice =>
      -- the block guarded by `!stream->priv->gathering_started`;
      -- `none` stands for `ret = FALSE; goto cleanup`
      let ports : Option (GstWebRTCICEStream × List Effect) :=
        if ¬ stream.priv.gathering_started then
          if ice.min_rtp_port ≠ 0 ∨ ice.max_rtp_port ≠ 65535 then
            if ice.min_rtp_port > ice.max_rtp_port then none
            else
              some ({ stream with priv := { stream.priv with gathering_started := true } },
                [Effect.set_port_range stream.stream_id NICE_COMPONENT_TYPE_RTP
                  ice.min_rtp_port ice.max_rtp_port])
          else
            some ({ stream with priv := { stream.priv with gathering_started := true } }, [])
        else some (stream, [])
      match ports with
      | none => (Outcome.returned false, stream, started)
      | some (stream1, pushed) =>
        let asked := [Effect.gather_candidates stream1.stream_id]
        if ¬ engine_result then (Outcome.returned false, stream1, started ++ pushed ++ asked)
        else
          (Outcome.returned true, stream1,
            started ++ pushed ++ asked ++
              stream1.priv.transports.map (fun trans => Effect.update_buffer_size trans))

/-! ## The stream in its environment -/

/-- The stream together with the allocator (`heap`, the next unused object
address), the calls made so far (`trace`, oldest first) and whether an
assertion has aborted the process. -/
structure World where
  stream : GstWebRTCICEStream
  heap : Nat
  trace : List Effect
  aborted : Bool
deriving DecidableEq, Repr

/-- One operation on the stream, with what the environment decides for it. -/
inductive Op where
  | find_transport (component : GstWebRTCICEComponent)
  | gather_candidates (ice : Option GstWebRTCICE) (engine_result : Bool)
  | candidate_gathering_done (stream_id : Nat)
deriving DecidableEq, Repr

/-- The world at construction of the stream. -/
def World.init (stream_id handler_id heap : Nat) : World :=
  { stream := gst_webrtc_ice_stream_new stream_id handler_id
    heap := heap
    trace := []
    aborted := false }

/-- Perform one operation.  After an abort nothing runs any more. -/
def World.step (w : World) (op : Op) : World :=
  if w.aborted then w
  else
    match op with
    | Op.find_transport component =>
      let r := gst_webrtc_ice_stream_find_transport w.heap w.stream component
      { w with stream := r.2.1, heap := r.2.2 }
    | Op.gather_candidates ice engine_result =>
      let r := gst_webrtc_ice_stream_gather_candidates ice engine_result w.stream
      { w with
        stream := r.2.1
        trace := w.trace ++ r.2.2
        aborted := decide (r.1 = Outcome.assertion_failed) }
    | Op.candidate_gathering_done stream_id =>
      let r := _on_candidate_gathering_done stream_id (some w.stream)
      { w with
        stream := r.1.getD w.stream
        trace := w.trace ++ r.2 }

/-- Perform a sequence of operations, first to last. -/
def World.run (w : World) (ops : List Op) : World :=
  ops.foldl World.step w

/-- Whether an effect is the engine's set-port-range call. -/
def Effect.is_set_port_range : Effect → Bool
  | Effect.set_port_range _ _ _ _ => true
  | _ => false

/-- Whether an effect is a call on the engine (set-port-range or gather). -/
def Effect.is_engine_call : Effect → Bool
  | Effect.set_port_range _ _ _ _ => true
  | Effect.gather_candidates _ => true
  | _ => false

/-- Whether an effect is the engine's gather call. -/
def Effect.is_gather_call : Effect → Bool
  | Effect.gather_candidates _ => true
  | _ => false

/-- The three gathering states of the specification. -/
inductive GatheringState where
  | IDLE
  | GATHERING
  | GATHERED
deriving DecidableEq, Repr

/-- The position of a gathering state in the order IDLE < GATHERING < GATHERED. -/
def GatheringState.rank : GatheringState → Nat
  | GatheringState.IDLE => 0
  | GatheringState.GATHERING => 1
  | GatheringState.GATHERED => 2

/-- The gathering state read from the stream's flags: GATHERED when `gathered`
is set, otherwise GATHERING when `gathering_started` is set, otherwise IDLE. -/
def gatheringState (stream : GstWebRTCICEStream) : GatheringState :=
  if stream.priv.gathered then GatheringState.GATHERED
  else if stream.priv.gathering_started then GatheringState.GATHERING
  else GatheringState.IDLE

/-- The registry holds allocated objects, each at most once: the addresses of the
registered transports are pairwise distinct and below the next unused address. -/
def registry_wf (heap : Nat) (stream : GstWebRTCICEStream) : Prop :=
  (stream.priv.transports.map (fun trans => trans.ptr)).Nodup ∧
    ∀ trans ∈ stream.priv.transports, trans.ptr < heap

instance (heap : Nat) (stream : GstWebRTCICEStream) : Decidable (registry_wf heap stream) := by
  unfold registry_wf
  infer_instance

/-! ## Concrete streams -/

/-- A stream with id 5 that holds one transport, for RTCP, at address 7; no
gathering has been asked for yet. -/
def stream_with_rtcp : GstWebRTCICEStream :=
  { stream_id := 5
    priv :=
      { gathered := false
        transports := [{ ptr := 7, component := GST_WEBRTC_ICE_COMPONENT_RTCP }]
        gathering_started := false
        candidate_gathering_done_id := 1 } }

/-- A stream with id 5 that holds two transports, RTCP at address 8 and RTP at
address 7, and whose gathering is complete. -/
def stream_gathered : GstWebRTCICEStream :=
  { stream_id := 5
    priv :=
      { gathered := true
        transports := [{ ptr := 8, component := GST_WEBRTC_ICE_COMPONENT_RTCP },
          { ptr := 7, component := GST_WEBRTC_ICE_COMPONENT_RTP }]
        gathering_started := true
        candidate_gathering_done_id := 1 } }

/-- An owner configured with the port range of the specification's example,
min = 50000 and max = 40000. -/
def ice_bad_range : GstWebRTCICE :=
  { min_rtp_port := 50000, max_rtp_port := 40000 }

/-- An owner with the default port range. -/
def ice_default : GstWebRTCICE :=
  { min_rtp_port := 0, max_rtp_port := 65535 }

end IceStream

/-!
Structured command interface (`ges-structured-interface.c`)

A shallow embedding of the field check, the layer lookup, the keyframe command
and the child-property command.  A command is a `GstStructure`: a name and an
ordered list of named values.  What the timeline and the libraries answer is an
argument of each function (an environment record); every function returns its
result, the content of `*error` after the call and the calls it made on the
timeline, in order.
-/

namespace GES

/-! ## Structures and values -/

/-- The value types the commands use. -/
inductive GType where
  | G_TYPE_STRING
  | G_TYPE_DOUBLE
  | G_TYPE_INT
  | G_TYPE_UINT64
deriving DecidableEq, Repr

/-- The clock-time type is the 64-bit unsigned type. -/
def GST_TYPE_CLOCK_TIME : GType := GType.G_TYPE_UINT64

/-- The library function `g_type_name` on these types. -/
def g_type_name : GType → String
  | GType.G_TYPE_STRING => "gchararray"
  | GType.G_TYPE_DOUBLE => "gdouble"
  | GType.G_TYPE_INT => "gint"
  | GType.G_TYPE_UINT64 => "guint64"

/-- A `GValue`: its type and its content, the string itself for a string and the
serialised value otherwise. -/
structure GValue where
  g_type : GType
  content : String
deriving DecidableEq, Repr

/-- A `GstStructure`: its name and its fields in order. -/
structure GstStructure where
  name : String
  fields : List (String × GValue)
deriving DecidableEq, Repr

/-- An error is its message. -/
abbrev GError := String

/-- Modelled from the spec: `gst_structure_get_value` is defined in `gststructure.c`,
which is not part of the sources.  It returns the value of the first field with
the given name, or NULL. -/
def gst_structure_get_value (struct : GstStructure) (fieldname : String) : Option GValue :=
  (struct.fields.find? (fun f => f.1 = fieldname)).map (fun f => f.2)

/-- Modelled from the spec: `gst_structure_get_string` is defined in
`gststructure.c`, which is not part of the sources.  It returns the string of a
field that holds a string, and NULL for a missing field or another type. -/
def gst_structure_get_string (struct : GstStructure) (fieldname : String) : Option String :=
  match gst_structure_get_value struct fieldname with
  | some v => if v.g_type = GType.G_TYPE_STRING then some v.content else none
  | none => none

/-- Modelled from the spec: `gst_structure_get` is defined in `gststructure.c`,
which is not part of the sources.  Called for one field, it finds the content of
a field that holds exactly the asked type. -/
def gst_structure_get (struct : GstStructure) (fieldname : String) (type : GType) :
    Option String :=
  match gst_structure_get_value struct fieldname with
  | some v => if v.g_type = type then some v.content else none
  | none => none

/-- Modelled from the spec: `gst_structure_foreach` is defined in `gststructure.c`,
which is not part of the sources.  It calls `func` on every field in order and
stops at the first call that returns FALSE. -/
def gst_structure_foreach {α : Type} (func : String → GValue → α → Bool × α) :
    List (String × GValue) → α → Bool × α
  | [], user_data => (true, user_data)
  | f :: rest, user_data =>
    let r := func f.1 f.2 user_data
    if r.1 then gst_structure_foreach func rest r.2 else (false, r.2)

/-- The library function `g_str_has_prefix`. -/
def g_str_has_prefix (str pre : String) : Bool :=
  pre.data.isPrefixOf str.data

/-- The pointer `&str[n]`: the string without its first `n` characters (each of
them one byte). -/
def str_offset (str : String) (n : Nat) : String :=
  String.mk (str.data.drop n)

/-! ## `_check_field` and `_check_fields` -/

/-- The record `FieldsError`: `fields` is the NULL-terminated array of valid
names. -/
structure FieldsError where
  fields : List String
  invalid_fields : List String
deriving DecidableEq, Repr

/-- The search loop of `_check_field`: whether `field` is one of `fields`. -/
def check_field_loop (field : String) : List String → Bool
  | [] => false
  | f :: rest => if f = field then true else check_field_loop field rest

/-- The callback `_check_field`. -/
def _check_field (field : String) (_value : GValue) (fields_error : FieldsError) :
    Bool × FieldsError :=
  if check_field_loop field fields_error.fields then (true, fields_error)
  else
    (true, { fields_error with invalid_fields := fields_error.invalid_fields ++ [field] })

/-- The message `_check_fields` builds for the unknown fields `invalid_fields`. -/
def check_fields_msg (struct_name : String) (invalid_fields : List String) : String :=
  invalid_fields.foldl (fun msg field => msg ++ " " ++ field)
    ("Unknown propert" ++ (if invalid_fields.length > 1 then "ies" else "y") ++ " in " ++
      (if struct_name.utf8ByteSize > 1 then "--" else "-") ++ struct_name ++ ":")

/-- The function `_check_fields`.  `error` is `none` for a NULL pointer and
`some e` for a pointer to the error slot holding `e`.  Returns the result and
the error slot after the call. -/
def _check_fields (struct : GstStructure) (fields_error : FieldsError)
    (error : Option (Option GError)) : Bool × Option (Option GError) :=
  let fields_error := (gst_structure_foreach _check_field struct.fields fields_error).2
  if fields_error.invalid_fields ≠ [] then
    (false,
      match error with
      | some _ => some (some (check_fields_msg struct.name fields_error.invalid_fields))
      | none => none)
  else (true, error)

/-- The unknown fields of a structure, in the words of the claim: the field names
of the structure that are not in the valid list, in field order. -/
def unknown_fields (struct : GstStructure) (valid : List String) : List String :=
  (struct.fields.map (fun f => f.1)).filter (fun field => decide (field ∉ valid))

/-! ## The timeline -/

/-- A call made on the timeline or on one of its objects, with its result. -/
inductive TimelineCall where
  /-- The call `gst_timed_value_control_source_set (source, timestamp, value)`. -/
  | control_source_set (timestamp : Nat) (value : String) (result : Bool)
  /-- The call `gst_timed_value_control_source_unset (source, timestamp)`. -/
  | control_source_unset (timestamp : Nat) (result : Bool)
  /-- The call `ges_timeline_save_to_uri (timeline, uri, NULL, TRUE, error)`. -/
  | save_to_uri (uri : String) (result : Bool)
  /-- The call `ges_timeline_element_set_child_property (element, name, value)`. -/
  | set_child_property (element : Nat) (property_name : String) (value : Option GValue)
      (result : Bool)
deriving DecidableEq, Repr

/-- The function `_ges_save_timeline_if_needed`.  `save` is what
`ges_timeline_save_to_uri` answers: its result and the error it stores, if any. -/
def _ges_save_timeline_if_needed (save : Bool × Option GError) (struct : GstStructure)
    (error : Option GError) : Bool × Option GError × List TimelineCall :=
  match gst_structure_get_string struct "project-uri" with
  | some nested_timeline_id =>
    (save.1,
      (match save.2 with
        | some e => some e
        | none => error),
      [TimelineCall.save_to_uri nested_timeline_id save.1])
  | none => (true, error, [])

/-! ## `_ges_get_layer_by_priority` -/

/-- A layer of a timeline, identified by its priority. -/
structure GESLayer where
  priority : Nat
deriving DecidableEq, Repr

/-- A timeline, as the list of its layers. -/
structure GESTimeline where
  layers : List GESLayer
deriving DecidableEq, Repr

/-- The largest `gint`. -/
def G_MAXINT : Int := 2147483647

/-- The value of an integer as a 32-bit two's-complement `gint`. -/
def gint_wrap (x : Int) : Int :=
  (x + 2147483648) % 4294967296 - 2147483648

/-- Modelled from the spec: `ges_timeline_get_layers` is defined in
`ges-timeline.c`, which is not part of the sources.  It returns the list of the
timeline's layers. -/
def ges_timeline_get_layers (timeline : GESTimeline) : List GESLayer :=
  timeline.layers

/-- Modelled from the spec: `ges_timeline_get_layer` is defined in
`ges-timeline.c`, which is not part of the sources.  It returns the layer of the
timeline that has the given priority, or NULL. -/
def ges_timeline_get_layer (timeline : GESTimeline) (priority : Nat) : Option GESLayer :=
  timeline.layers.find? (fun layer => layer.priority = priority)

/-- Modelled from the spec: `ges_timeline_append_layer` is defined in
`ges-timeline.c`, which is not part of the sources.  It appends one new layer,
whose priority is the number of layers the timeline had, and returns it. -/
def ges_timeline_append_layer (timeline : GESTimeline) : GESLayer × GESTimeline :=
  ({ priority := timeline.layers.length },
    { layers := timeline.layers ++ [{ priority := timeline.layers.length }] })

/-- The loop `while (i <= priority) { layer = ges_timeline_append_layer (timeline); i++; }`
of `_ges_get_layer_by_priority`, run for at most `fuel` tests of the condition;
`none` when the fuel runs out before the loop exits.  The increment of the
`gint` wraps. -/
def append_layers_loop : Nat → Int → Int → GESTimeline → Option GESLayer →
    Option (Option GESLayer × GESTimeline)
  | 0, _, _, _, _ => none
  | fuel + 1, priority, i, timeline, layer =>
    if i ≤ priority then
      append_layers_loop fuel priority (gint_wrap (i + 1))
        (ges_timeline_append_layer timeline).2 (some (ges_timeline_append_layer timeline).1)
    else some (layer, timeline)

/-- The function `_ges_get_layer_by_priority`, with `fuel` for its loop: the layer
returned (`none` inside for NULL) and the timeline after the call. -/
def _ges_get_layer_by_priority (fuel : Nat) (timeline : GESTimeline) (priority : Int) :
    Option (Option GESLayer × GESTimeline) :=
  let priority := max priority 0
  let layers := ges_timeline_get_layers timeline
  let nlayers : Int := gint_wrap (layers.length % 4294967296)
  if priority ≥ nlayers then
    append_layers_loop fuel priority nlayers timeline none
  else some (ges_timeline_get_layer timeline priority.toNat, timeline)

/-- A timeline whose layers have the priorities 0, 1, 2, ... in order. -/
def timeline_wf (timeline : GESTimeline) : Prop :=
  timeline.layers = (List.range timeline.layers.length).map (fun p => { priority := p })

/-! ## `_ges_add_remove_keyframe_from_struct` -/

/-- The message of the macro `GET_AND_CHECK` for a missing field. -/
def GET_AND_CHECK_msg (name : String) (type_name : String) (struct_str : String) : GError :=
  "Could not get the mandatory field '" ++ name ++ "' of type " ++ type_name ++
    " - fields in " ++ struct_str

/-- What the timeline and the libraries answer to
`_ges_add_remove_keyframe_from_struct`. -/
structure KeyframeEnv where
  /-- The text `gst_structure_to_string (structure)`. -/
  struct_str : String
  /-- The time `ges_util_structure_get_clocktime (structure, "timestamp", ..)`
  finds, if any. -/
  timestamp : Option Nat
  /-- Whether `ges_timeline_get_element (timeline, element_name)` is a track
  element. -/
  is_track_element : Bool
  /-- Whether `ges_track_element_get_control_binding` returns a binding. -/
  has_binding : Bool
  /-- The "control-source" of the binding: `none` for NULL, otherwise its type
  name and whether it is a `GstTimedValueControlSource`. -/
  source : Option (String × Bool)
  /-- The "absolute" property of the binding. -/
  absolute : Bool
  /-- The type name of the child property `ges_timeline_element_lookup_child`
  finds, if it finds one. -/
  lookup_child : Option String
  /-- The name of the element, `GES_TIMELINE_ELEMENT_NAME (element)`. -/
  element_name : String
  /-- Whether `g_value_transform` to a double succeeds. -/
  transform : Bool
  /-- The result of `gst_timed_value_control_source_set`. -/
  set_result : Bool
  /-- The result of `gst_timed_value_control_source_unset`. -/
  unset_result : Bool
  /-- The text of a time under `GST_TIME_FORMAT`. -/
  time_str : Nat → String
  /-- The answer of `ges_timeline_save_to_uri`: its result and the error it
  stores, if any. -/
  save : Bool × Option GError

/-- The part of `_ges_add_remove_keyframe_from_struct` that reads `value`: the
value, or the error of the `goto done`. -/
def keyframe_value (env : KeyframeEnv) (struct : GstStructure) (property_name : String) :
    Except GError String :=
  if env.absolute then
    match env.lookup_child with
    | none =>
      Except.error
        ("Could not get property " ++ property_name ++ " for " ++ env.element_name)
    | some value_type_name =>
      match gst_structure_get_value struct "value" with
      | none => Except.error (GET_AND_CHECK_msg "value" value_type_name env.struct_str)
      | some v =>
        if ¬ env.transform then
          Except.error (GET_AND_CHECK_msg "value" value_type_name env.struct_str)
        else Except.ok v.content
  else
    match gst_structure_get struct "value" GType.G_TYPE_DOUBLE with
    | none =>
      Except.error
        (GET_AND_CHECK_msg "value" (g_type_name GType.G_TYPE_DOUBLE) env.struct_str)
    | some value => Except.ok value

/-- The function `_ges_add_remove_keyframe_from_struct`.  `error` is the content
of `*error` before the call.  Returns `ret`, the content of `*error` after the
call and the calls made. -/
def _ges_add_remove_keyframe_from_struct (env : KeyframeEnv) (struct : GstStructure)
    (error : Option GError) : Bool × Option GError × List TimelineCall :=
  let valid_fields := ["element-name", "property-name", "value", "timestamp", "project-uri"]
  let checked := _check_fields struct { fields := valid_fields, invalid_fields := [] }
    (some error)
  if ¬ checked.1 then (false, checked.2.getD error, [])
  else
    match gst_structure_get struct "element-name" GType.G_TYPE_STRING with
    | none =>
      (false,
        some (GET_AND_CHECK_msg "element-name" (g_type_name GType.G_TYPE_STRING)
          env.struct_str), [])
    | some element_name =>
    match gst_structure_get struct "property-name" GType.G_TYPE_STRING with
    | none =>
      (false,
        some (GET_AND_CHECK_msg "property-name" (g_type_name GType.G_TYPE_STRING)
          env.struct_str), [])
    | some property_name =>
    match env.timestamp with
    | none =>
      (false,
        some (GET_AND_CHECK_msg "timestamp" (g_type_name GST_TYPE_CLOCK_TIME)
          env.struct_str), [])
    | some timestamp =>
    if ¬ env.is_track_element then
      (false, some ("Could not find TrackElement " ++ element_name), [])
    else if ¬ env.has_binding then
      (false,
        some ("No control binding found for " ++ element_name ++ ":" ++ property_name ++
          " you should first set-control-binding on it"), [])
    else
      match env.source with
      | none =>
        (false,
          some ("No control source found for " ++ element_name ++ ":" ++ property_name ++
            " you should first set-control-binding on it"), [])
      | some (source_type_name, is_timed_value_control_source) =>
      if ¬ is_timed_value_control_source then
        (false,
          some ("You can use add-keyframe only on GstTimedValueControlSource not " ++
            source_type_name), [])
      else
        match keyframe_value env struct property_name with
        | Except.error e => (false, some e, [])
        | Except.ok value =>
          -- `ret = gst_timed_value_control_source_set (..)` or `.._unset (..)`: the
          -- result is kept in the call; `ret` is assigned again just below
          let keyframe : Option GError × List TimelineCall :=
            if struct.name = "add-keyframe" then
              (error, [TimelineCall.control_source_set timestamp value env.set_result])
            else
              (if ¬ env.unset_result then
                  some ("Could not unset value for timestamp: " ++ env.time_str timestamp)
                else error,
                [TimelineCall.control_source_unset timestamp env.unset_result])
          -- `ret = _ges_save_timeline_if_needed (timeline, structure, error)`
          let saved := _ges_save_timeline_if_needed env.save struct keyframe.1
          (saved.1, saved.2.1, keyframe.2 ++ saved.2.2)

/-! ## `_ges_set_child_property_from_struct` -/

/-- What the timeline and the libraries answer to
`_ges_set_child_property_from_struct`.  Elements are named by their address. -/
structure ChildPropertyEnv where
  /-- The text `gst_structure_to_string (structure)`. -/
  struct_str : String
  /-- The object data `LAST_CHILD_QDATA` of the timeline. -/
  last_child : Option Nat
  /-- The function `ges_timeline_get_element (timeline, name)`. -/
  get_element : String → Option Nat
  /-- The function `ges_track_element_lookup_child (element, name, NULL, NULL)`. -/
  lookup_child : Nat → String → Bool
  /-- The object data `LAST_CONTAINER_QDATA` of the timeline. -/
  last_container : Option Nat
  /-- The test `GES_IS_TIMELINE_ELEMENT (element)`. -/
  is_timeline_element : Nat → Bool
  /-- The result of `ges_timeline_element_set_child_property (element, name, value)`. -/
  set_child_property : Nat → String → Option GValue → Bool
  /-- The names of `ges_timeline_element_list_children_properties (element, ..)`. -/
  children_properties : Nat → List String
  /-- The name of an element, `GES_TIMELINE_ELEMENT_NAME (element)`. -/
  element_name : Nat → String
  /-- The answer of `ges_timeline_save_to_uri`: its result and the error it
  stores, if any. -/
  save : Bool × Option GError

/-- The property name `_ges_set_child_property_from_struct` works with: the
"property" string field, else the structure name after "set-", else none. -/
def child_property_name (struct : GstStructure) : Option String :=
  match gst_structure_get_string struct "property" with
  | some property_name => some property_name
  | none =>
    let name := struct.name
    if g_str_has_prefix name "set-" then some (str_offset name 4) else none

/-- The error text of a failed `ges_timeline_element_set_child_property`. -/
def set_child_property_errstr (property_name element_name : String) (specs : List String) :
    String :=
  specs.foldl (fun errstr spec => errstr ++ "    - " ++ spec ++ "\n")
    ("\n  Could not set property `" ++ property_name ++ "` on `" ++ element_name ++
      "`, valid properties:\n")

/-- The function `_ges_set_child_property_from_struct`.  `error` is the content
of `*error` before the call.  Returns the result, the content of `*error` after
the call and the calls made (the print to the standard output is left out). -/
def _ges_set_child_property_from_struct (env : ChildPropertyEnv) (struct : GstStructure)
    (error : Option GError) : Bool × Option GError × List TimelineCall :=
  let valid_fields := ["element-name", "property", "value", "project-uri"]
  let checked := _check_fields struct { fields := valid_fields, invalid_fields := [] }
    (some error)
  if ¬ checked.1 then (false, checked.2.getD error, [])
  else
    let element_name := gst_structure_get_string struct "element-name"
    let element : Option Nat :=
      match element_name with
      | none => env.last_child
      | some n => env.get_element n
    match child_property_name struct with
    | none =>
      (false, some ("Could not find any property name in " ++ env.struct_str), [])
    | some property_name =>
      let element : Option Nat :=
        match element with
        | some e => if ¬ env.lookup_child e property_name then none else some e
        | none => none
      let element : Option Nat :=
        match element with
        | some e => some e
        | none => env.last_container
      match element with
      | none =>
        (false, some ("Could not find anywhere to set property: " ++ property_name), [])
      | some element =>
        if ¬ env.is_timeline_element element then
          (false, some ("Could not find child " ++ element_name.getD "(null)"), [])
        else
          let value := gst_structure_get_value struct "value"
          let set := env.set_child_property element property_name value
          let calls := [TimelineCall.set_child_property element property_name value set]
          if ¬ set then
            (false,
              some (set_child_property_errstr property_name (env.element_name element)
                (env.children_properties element)),
              calls)
          else
            let saved := _ges_save_timeline_if_needed env.save struct error
            (saved.1, saved.2.1, calls ++ saved.2.2)

end GES

namespace IceStream

/-! ## Lemmas on the registry -/

theorem find_transport_loop_some {c : GstWebRTCICEComponent}
    {l : List GstWebRTCICETransport} {t : GstWebRTCICETransport}
    (h : find_transport_loop c l = some t) : t ∈ l ∧ t.component = c := by
  induction l with
  | nil => simp [find_transport_loop] at h
  | cons a l ih =>
    unfold find_transport_loop at h
    by_cases hc : c = a.component
    · rw [if_pos hc] at h
      cases h
      exact ⟨List.mem_cons_self _ _, hc.symm⟩
    · rw [if_neg hc] at h
      exact ⟨List.mem_cons_of_mem _ (ih h).1, (ih h).2⟩

theorem find_transport_loop_none {c : GstWebRTCICEComponent}
    {l : List GstWebRTCICETransport} (h : find_transport_loop c l = none) :
    ∀ t ∈ l, t.component ≠ c := by
  induction l with
  | nil => simp
  | cons a l ih =>
    unfold find_transport_loop at h
    by_cases hc : c = a.component
    · rw [if_pos hc] at h
      cases h
    · rw [if_neg hc] at h
      intro t ht
      rcases List.mem_cons.mp ht with rfl | ht
      · exact fun e => hc e.symm
      · exact ih h t ht

/-- The call on a registry that has a transport for the component. -/
theorem find_transport_found {heap : Nat} {stream : GstWebRTCICEStream}
    {c : GstWebRTCICEComponent} {t : GstWebRTCICETransport}
    (h : find_transport_loop c stream.priv.transports = some t) :
    gst_webrtc_ice_stream_find_transport heap stream c = (t, stream, heap) := by
  simp [gst_webrtc_ice_stream_find_transport, h]

/-- The call on a registry that has no transport for the component. -/
theorem find_transport_fresh {heap : Nat} {stream : GstWebRTCICEStream}
    {c : GstWebRTCICEComponent}
    (h : find_transport_loop c stream.priv.transports = none) :
    gst_webrtc_ice_stream_find_transport heap stream c =
      ({ ptr := heap, component := c },
        { stream with priv := { stream.priv with
            transports := { ptr := heap, component := c } :: stream.priv.transports } },
        heap + 1) := by
  simp [gst_webrtc_ice_stream_find_transport, h, gst_webrtc_nice_transport_new]

theorem find_transport_component (heap : Nat) (stream : GstWebRTCICEStream)
    (c : GstWebRTCICEComponent) :
    (gst_webrtc_ice_stream_find_transport heap stream c).1.component = c := by
  cases h : find_transport_loop c stream.priv.transports with
  | none => rw [find_transport_fresh h]
  | some t => rw [find_transport_found h]; exact (find_transport_loop_some h).2

/-- After the call the registry finds the returned transport for the component. -/
theorem find_transport_registered (heap : Nat) (stream : GstWebRTCICEStream)
    (c : GstWebRTCICEComponent) :
    find_transport_loop c
        (gst_webrtc_ice_stream_find_transport heap stream c).2.1.priv.transports =
      some (gst_webrtc_ice_stream_find_transport heap stream c).1 := by
  cases h : find_transport_loop c stream.priv.transports with
  | none => rw [find_transport_fresh h]; simp [find_transport_loop]
  | some t => rw [find_transport_found h]; exact h

theorem find_transport_mem (heap : Nat) (stream : GstWebRTCICEStream)
    (c : GstWebRTCICEComponent) :
    (gst_webrtc_ice_stream_find_transport heap stream c).1 ∈
      (gst_webrtc_ice_stream_find_transport heap stream c).2.1.priv.transports :=
  (find_transport_loop_some (find_transport_registered heap stream c)).1

theorem find_transport_keeps (heap : Nat) (stream : GstWebRTCICEStream)
    (c : GstWebRTCICEComponent) (t : GstWebRTCICETransport)
    (ht : t ∈ stream.priv.transports) :
    t ∈ (gst_webrtc_ice_stream_find_transport heap stream c).2.1.priv.transports := by
  cases h : find_transport_loop c stream.priv.transports with
  | none => rw [find_transport_fresh h]; exact List.mem_cons_of_mem _ ht
  | some u => rw [find_transport_found h]; exact ht

/-- The call keeps the registry well-formed. -/
theorem find_transport_wf (heap : Nat) (stream : GstWebRTCICEStream)
    (c : GstWebRTCICEComponent) (hwf : registry_wf heap stream) :
    registry_wf (gst_webrtc_ice_stream_find_transport heap stream c).2.2
      (gst_webrtc_ice_stream_find_transport heap stream c).2.1 := by
  cases h : find_transport_loop c stream.priv.transports with
  | some u => rw [find_transport_found h]; exact hwf
  | none =>
    rw [find_transport_fresh h]
    obtain ⟨hnd, hlt⟩ := hwf
    refine ⟨?_, ?_⟩
    · simp only [List.map_cons, List.nodup_cons]
      refine ⟨?_, hnd⟩
      intro hmem
      obtain ⟨u, hu, hp⟩ := List.mem_map.mp hmem
      have := hlt u hu
      omega
    · intro u hu
      rcases List.mem_cons.mp hu with rfl | hu
      · exact Nat.lt_succ_self _
      · exact Nat.lt_succ_of_lt (hlt u hu)

/-- In a well-formed registry two entries with the same address are the same entry. -/
theorem registry_wf_ptr_inj {heap : Nat} {stream : GstWebRTCICEStream}
    (hwf : registry_wf heap stream) {t u : GstWebRTCICETransport}
    (ht : t ∈ stream.priv.transports) (hu : u ∈ stream.priv.transports)
    (hp : t.ptr = u.ptr) : t = u :=
  List.inj_on_of_nodup_map hwf.1 ht hu hp

/-- A well-formed registry has no entry twice. -/
theorem registry_wf_nodup {heap : Nat} {stream : GstWebRTCICEStream}
    (hwf : registry_wf heap stream) : stream.priv.transports.Nodup :=
  List.Nodup.of_map _ hwf.1

/-! ## C1 -/

/-- C1: calling `gst_webrtc_ice_stream_find_transport` twice with the same
component returns the identical transport, and the second call leaves the
stream (hence the registry) and the allocator unchanged; for two distinct
components the two calls return distinct transports, each bound to the
component it was requested for, and on a well-formed registry the two are
distinct objects (distinct addresses). -/
theorem find_transport_twice (heap : Nat) (stream : GstWebRTCICEStream) :
    (∀ c : GstWebRTCICEComponent,
      (gst_webrtc_ice_stream_find_transport
          (gst_webrtc_ice_stream_find_transport heap stream c).2.2
          (gst_webrtc_ice_stream_find_transport heap stream c).2.1 c) =
        ((gst_webrtc_ice_stream_find_transport heap stream c).1,
          (gst_webrtc_ice_stream_find_transport heap stream c).2.1,
          (gst_webrtc_ice_stream_find_transport heap stream c).2.2)) ∧
    (∀ c1 c2 : GstWebRTCICEComponent, c1 ≠ c2 →
      (gst_webrtc_ice_stream_find_transport heap stream c1).1.component = c1 ∧
      (gst_webrtc_ice_stream_find_transport
          (gst_webrtc_ice_stream_find_transport heap stream c1).2.2
          (gst_webrtc_ice_stream_find_transport heap stream c1).2.1 c2).1.component = c2 ∧
      (gst_webrtc_ice_stream_find_transport heap stream c1).1 ≠
        (gst_webrtc_ice_stream_find_transport
          (gst_webrtc_ice_stream_find_transport heap stream c1).2.2
          (gst_webrtc_ice_stream_find_transport heap stream c1).2.1 c2).1 ∧
      (registry_wf heap stream →
        (gst_webrtc_ice_stream_find_transport heap stream c1).1.ptr ≠
          (gst_webrtc_ice_stream_find_transport
            (gst_webrtc_ice_stream_find_transport heap stream c1).2.2
            (gst_webrtc_ice_stream_find_transport heap stream c1).2.1 c2).1.ptr)) := by
  refine ⟨fun c => ?_, fun c1 c2 hne => ?_⟩
  · exact find_transport_found (find_transport_registered heap stream c)
  · have h1 := find_transport_component heap stream c1
    have h2 := find_transport_component
      (gst_webrtc_ice_stream_find_transport heap stream c1).2.2
      (gst_webrtc_ice_stream_find_transport heap stream c1).2.1 c2
    have hdiff : (gst_webrtc_ice_stream_find_transport heap stream c1).1 ≠
        (gst_webrtc_ice_stream_find_transport
          (gst_webrtc_ice_stream_find_transport heap stream c1).2.2
          (gst_webrtc_ice_stream_find_transport heap stream c1).2.1 c2).1 := by
      intro e
      rw [← e, h1] at h2
      exact hne h2
    refine ⟨h1, h2, hdiff, fun hwf hp => hdiff ?_⟩
    have hwf2 := find_transport_wf _ _ c2 (find_transport_wf heap stream c1 hwf)
    exact registry_wf_ptr_inj hwf2
      (find_transport_keeps _ _ c2 _ (find_transport_mem heap stream c1))
      (find_transport_mem _ _ c2) hp

/-- C1 at a stream that already holds an RTCP transport at address 7: RTP is
created at address 8, and the RTCP request finds the one at address 7. -/
theorem find_transport_twice_witness :
    registry_wf 8 stream_with_rtcp ∧
    (gst_webrtc_ice_stream_find_transport 8 stream_with_rtcp 0).1.ptr ≠
      (gst_webrtc_ice_stream_find_transport
        (gst_webrtc_ice_stream_find_transport 8 stream_with_rtcp 0).2.2
        (gst_webrtc_ice_stream_find_transport 8 stream_with_rtcp 0).2.1 1).1.ptr :=
  ⟨by decide,
    ((find_transport_twice 8 stream_with_rtcp).2 0 1 (by decide)).2.2.2 (by decide)⟩

/-! ## C3 to C6: single calls -/

/-- C3: on a stream whose `gathered` flag is set,
`gst_webrtc_ice_stream_gather_candidates` returns TRUE, makes no call at all
(no engine call, no call on a transport) and leaves the stream unchanged,
whatever the owner reference resolves to and whatever the engine would answer. -/
theorem gather_candidates_gathered (ice : Option GstWebRTCICE) (engine_result : Bool)
    (stream : GstWebRTCICEStream) (hg : stream.priv.gathered = true) :
    gst_webrtc_ice_stream_gather_candidates ice engine_result stream =
      (Outcome.returned true, stream, []) := by
  simp [gst_webrtc_ice_stream_gather_candidates, hg]

/-- C3 at a gathered stream with two transports and an engine that would accept. -/
theorem gather_candidates_gathered_witness :
    stream_gathered.priv.gathered = true ∧
    gst_webrtc_ice_stream_gather_candidates (some ice_default) true stream_gathered =
      (Outcome.returned true, stream_gathered, []) :=
  ⟨rfl, gather_candidates_gathered (some ice_default) true stream_gathered rfl⟩

/-- C4, amended: on a stream that is not gathered and whose `gathering_started`
flag is clear (no earlier call got past the port-range step), with a live owner
whose port range has min > max, `gst_webrtc_ice_stream_gather_candidates` returns
FALSE and none of the calls it makes is an engine call (neither set-port-range
nor gather). -/
theorem gather_candidates_invalid_range (ice : GstWebRTCICE) (engine_result : Bool)
    (stream : GstWebRTCICEStream) (hg : stream.priv.gathered = false)
    (hs : stream.priv.gathering_started = false)
    (hp : ice.min_rtp_port > ice.max_rtp_port) :
    (gst_webrtc_ice_stream_gather_candidates (some ice) engine_result stream).1 =
        Outcome.returned false ∧
      ∀ e ∈ (gst_webrtc_ice_stream_gather_candidates (some ice) engine_result stream).2.2,
        e.is_engine_call = false := by
  have h0 : ice.min_rtp_port ≠ 0 := by omega
  simp [gst_webrtc_ice_stream_gather_candidates, hg, hs, hp, h0, Effect.is_engine_call]

/-- C4, amended, at min = 50000, max = 40000, with an engine that would accept. -/
theorem gather_candidates_invalid_range_witness :
    stream_with_rtcp.priv.gathered = false ∧
    stream_with_rtcp.priv.gathering_started = false ∧
    ice_bad_range.min_rtp_port > ice_bad_range.max_rtp_port ∧
    (gst_webrtc_ice_stream_gather_candidates (some ice_bad_range) true stream_with_rtcp).1 =
        Outcome.returned false ∧
      ∀ e ∈ (gst_webrtc_ice_stream_gather_candidates (some ice_bad_range) true
          stream_with_rtcp).2.2,
        e.is_engine_call = false :=
  ⟨rfl, rfl, by decide,
    gather_candidates_invalid_range ice_bad_range true stream_with_rtcp rfl rfl (by decide)⟩

/-- C4, as stated, fails: on the stream with id 5, a first call runs with the
default range configured (the engine refuses): it pushes no port range, so no
port range has been applied, and the stream is not gathered, but
`gathering_started` is now set.  The range is then configured to min = 50000,
max = 40000: the next call does not validate it, asks the engine to gather and
returns TRUE. -/
theorem gather_candidates_invalid_range_counterexample :
    ((World.init 5 1 0).run
      [Op.gather_candidates (some ice_default) false]).stream.priv.gathered = false ∧
    ((World.init 5 1 0).run
      [Op.gather_candidates (some ice_default) false]).trace.filter
        Effect.is_set_port_range = [] ∧
    ((World.init 5 1 0).run
      [Op.gather_candidates (some ice_default) false]).stream.priv.gathering_started = true ∧
    ice_bad_range.min_rtp_port > ice_bad_range.max_rtp_port ∧
    (gst_webrtc_ice_stream_gather_candidates (some ice_bad_range) true
      ((World.init 5 1 0).run
        [Op.gather_candidates (some ice_default) false]).stream).1 = Outcome.returned true ∧
    (gst_webrtc_ice_stream_gather_candidates (some ice_bad_range) true
      ((World.init 5 1 0).run
        [Op.gather_candidates (some ice_default) false]).stream).2.2.filter
          Effect.is_engine_call = [Effect.gather_candidates 5] := by
  decide

/-- C5: when `gst_webrtc_ice_stream_gather_candidates` fails the port-range
validation (stream not gathered, `gathering_started` clear, min > max), the
stream after the call is the stream before the call: `gathered`,
`gathering_started`, the registry and `stream_id` are unchanged. -/
theorem gather_candidates_invalid_range_state (ice : GstWebRTCICE) (engine_result : Bool)
    (stream : GstWebRTCICEStream) (hg : stream.priv.gathered = false)
    (hs : stream.priv.gathering_started = false)
    (hp : ice.min_rtp_port > ice.max_rtp_port) :
    (gst_webrtc_ice_stream_gather_candidates (some ice) engine_result stream).2.1 = stream ∧
    (gst_webrtc_ice_stream_gather_candidates (some ice) engine_result
      stream).2.1.priv.gathered = stream.priv.gathered ∧
    (gst_webrtc_ice_stream_gather_candidates (some ice) engine_result
      stream).2.1.priv.gathering_started = stream.priv.gathering_started ∧
    (gst_webrtc_ice_stream_gather_candidates (some ice) engine_result
      stream).2.1.priv.transports = stream.priv.transports ∧
    (gst_webrtc_ice_stream_gather_candidates (some ice) engine_result
      stream).2.1.stream_id = stream.stream_id := by
  have h0 : ice.min_rtp_port ≠ 0 := by omega
  have h : (gst_webrtc_ice_stream_gather_candidates (some ice) engine_result stream).2.1 =
      stream := by
    simp [gst_webrtc_ice_stream_gather_candidates, hg, hs, hp, h0]
  rw [h]
  exact ⟨rfl, rfl, rfl, rfl, rfl⟩

/-- C5 at min = 50000, max = 40000. -/
theorem gather_candidates_invalid_range_state_witness :
    stream_with_rtcp.priv.gathered = false ∧
    stream_with_rtcp.priv.gathering_started = false ∧
    ice_bad_range.min_rtp_port > ice_bad_range.max_rtp_port ∧
    (gst_webrtc_ice_stream_gather_candidates (some ice_bad_range) true stream_with_rtcp).2.1 =
      stream_with_rtcp :=
  ⟨rfl, rfl, by decide,
    (gather_candidates_invalid_range_state ice_bad_range true stream_with_rtcp rfl rfl
      (by decide)).1⟩

/-- C6: a completion event whose stream id differs from the stream's own
`stream_id` leaves the stream as it was (`gathered`, `gathering_started` and the
registry included) and makes no call on any transport. -/
theorem gathering_done_other_stream (stream_id : Nat) (stream : GstWebRTCICEStream)
    (hne : stream_id ≠ stream.stream_id) :
    _on_candidate_gathering_done stream_id (some stream) = (some stream, []) := by
  simp [_on_candidate_gathering_done, hne]

/-- C6 at the event for stream 6 delivered to stream 5. -/
theorem gathering_done_other_stream_witness :
    6 ≠ stream_with_rtcp.stream_id ∧
    _on_candidate_gathering_done 6 (some stream_with_rtcp) = (some stream_with_rtcp, []) :=
  ⟨by decide, gathering_done_other_stream 6 stream_with_rtcp (by decide)⟩

/-! ## C7: the completion event of the stream itself -/

/-- The number of COMPLETE (or GATHERING) state changes a list of transports gives
to one transport is the number of times the transport is in the list. -/
theorem count_gathering_state_change (state : GstWebRTCICEGatheringState)
    (t : GstWebRTCICETransport) (l : List GstWebRTCICETransport) :
    (l.map (fun trans => Effect.gathering_state_change trans state)).count
        (Effect.gathering_state_change t state) = l.count t := by
  induction l with
  | nil => rfl
  | cons a l ih =>
    by_cases h : a = t
    · subst h
      simp [ih]
    · have h2 : Effect.gathering_state_change t state ≠ Effect.gathering_state_change a state := by
        intro e
        injection e with e1
        exact h e1.symm
      rw [List.map_cons, List.count_cons_of_ne h2, List.count_cons_of_ne (Ne.symm h), ih]

/-- The handler on the event of the stream itself. -/
theorem gathering_done_own_stream_eq (stream : GstWebRTCICEStream) :
    (_on_candidate_gathering_done stream.stream_id (some stream)).1 =
      some { stream with priv := { stream.priv with gathered := true } } := by
  simp [_on_candidate_gathering_done]

/-- C7: a completion event carrying the stream's own `stream_id`, delivered to a
live stream, sets `gathered` and changes nothing else of the stream (the registry
is unchanged), so the gathering state read from the flags is GATHERED; the calls it makes are the COMPLETE state change on the registered
transports, in registry order, and nothing else; on a well-formed registry every
registered transport gets it exactly once and every other transport never. -/
theorem gathering_done_own_stream (stream : GstWebRTCICEStream) :
    _on_candidate_gathering_done stream.stream_id (some stream) =
      (some { stream with priv := { stream.priv with gathered := true } },
        stream.priv.transports.map
          (fun trans => Effect.gathering_state_change trans GstWebRTCICEGatheringState.COMPLETE)) ∧
    gatheringState { stream with priv := { stream.priv with gathered := true } } =
      GatheringState.GATHERED ∧
    (∀ heap : Nat, registry_wf heap stream → ∀ t : GstWebRTCICETransport,
      ((_on_candidate_gathering_done stream.stream_id (some stream)).2.count
        (Effect.gathering_state_change t GstWebRTCICEGatheringState.COMPLETE) =
          if t ∈ stream.priv.transports then 1 else 0)) ∧
    (∀ e ∈ (_on_candidate_gathering_done stream.stream_id (some stream)).2,
      ∃ t ∈ stream.priv.transports,
        e = Effect.gathering_state_change t GstWebRTCICEGatheringState.COMPLETE) := by
  have h : _on_candidate_gathering_done stream.stream_id (some stream) =
      (some { stream with priv := { stream.priv with gathered := true } },
        stream.priv.transports.map
          (fun trans => Effect.gathering_state_change trans GstWebRTCICEGatheringState.COMPLETE)) := by
    simp [_on_candidate_gathering_done]
  refine ⟨h, rfl, ?_, ?_⟩
  · intro heap hwf t
    rw [h]
    simp only
    rw [count_gathering_state_change]
    by_cases ht : t ∈ stream.priv.transports
    · rw [if_pos ht]
      exact List.count_eq_one_of_mem (registry_wf_nodup hwf) ht
    · rw [if_neg ht]
      exact List.count_eq_zero_of_not_mem ht
  · intro e he
    rw [h] at he
    obtain ⟨t, ht, rfl⟩ := List.mem_map.mp he
    exact ⟨t, ht, rfl⟩

/-- C7 at the stream with id 5 and one transport (RTCP, address 7): that
transport gets COMPLETE once. -/
theorem gathering_done_own_stream_witness :
    registry_wf 8 stream_with_rtcp ∧
    (_on_candidate_gathering_done 5 (some stream_with_rtcp)).2.count
      (Effect.gathering_state_change { ptr := 7, component := 1 }
        GstWebRTCICEGatheringState.COMPLETE) = 1 :=
  ⟨by decide,
    (gathering_done_own_stream stream_with_rtcp).2.2.1 8 (by decide)
      { ptr := 7, component := 1 }⟩

/-! ## C8: the scenario -/

/-- C8: for a stream with id `s` (constructed at allocator position `heap`),
`find_transport (RTP)` creates A and `find_transport (RTCP)` creates B, two
distinct objects; with the default port range and an engine that accepts,
`gather_candidates` returns TRUE, sends GATHERING to B and to A, asks the engine
to gather exactly once, for stream `s`, and never sets a port range; the
completion event for `s` sends COMPLETE to B and to A, once each; a further
`gather_candidates` returns TRUE and makes no call, whatever the owner and the
engine are then. -/
theorem scenario_rtp_rtcp (s handler_id heap : Nat) :
    let A : GstWebRTCICETransport := { ptr := heap, component := GST_WEBRTC_ICE_COMPONENT_RTP }
    let B : GstWebRTCICETransport :=
      { ptr := heap + 1, component := GST_WEBRTC_ICE_COMPONENT_RTCP }
    let r1 := gst_webrtc_ice_stream_find_transport heap (gst_webrtc_ice_stream_new s handler_id)
      GST_WEBRTC_ICE_COMPONENT_RTP
    let r2 := gst_webrtc_ice_stream_find_transport r1.2.2 r1.2.1 GST_WEBRTC_ICE_COMPONENT_RTCP
    let g := gst_webrtc_ice_stream_gather_candidates (some ice_default) true r2.2.1
    let d := _on_candidate_gathering_done s (some g.2.1)
    r1.1 = A ∧ r2.1 = B ∧ A.ptr ≠ B.ptr ∧ r2.2.1.priv.transports = [B, A] ∧
    g.1 = Outcome.returned true ∧
    g.2.2 =
      [Effect.gathering_state_change B GstWebRTCICEGatheringState.GATHERING,
        Effect.gathering_state_change A GstWebRTCICEGatheringState.GATHERING,
        Effect.gather_candidates s,
        Effect.update_buffer_size B,
        Effect.update_buffer_size A] ∧
    d.2 =
      [Effect.gathering_state_change B GstWebRTCICEGatheringState.COMPLETE,
        Effect.gathering_state_change A GstWebRTCICEGatheringState.COMPLETE] ∧
    ∃ stream4, d.1 = some stream4 ∧
      ∀ (ice : Option GstWebRTCICE) (engine_result : Bool),
        gst_webrtc_ice_stream_gather_candidates ice engine_result stream4 =
          (Outcome.returned true, stream4, []) := by
  intro A B r1 r2 g d
  have hg : g.2.1 = GstWebRTCICEStream.mk s
      (GstWebRTCICEStreamPrivate.mk false [B, A] true handler_id) := rfl
  have hd : d = (some (GstWebRTCICEStream.mk s
        (GstWebRTCICEStreamPrivate.mk true [B, A] true handler_id)),
      [Effect.gathering_state_change B GstWebRTCICEGatheringState.COMPLETE,
        Effect.gathering_state_change A GstWebRTCICEGatheringState.COMPLETE]) := by
    simp only [d, hg]
    simp [_on_candidate_gathering_done]
  refine ⟨rfl, rfl, ?_, rfl, rfl, rfl, by rw [hd], ?_⟩
  · show heap ≠ heap + 1
    omega
  · exact ⟨_, by rw [hd], fun ice engine_result =>
      gather_candidates_gathered ice engine_result _ rfl⟩

/-- C8 at stream id 5, with the allocator at address 0: the trace of the three
operations `find_transport`, `find_transport`, `gather_candidates`, completion
event, `gather_candidates` holds one engine call, the gather for stream 5. -/
theorem scenario_rtp_rtcp_witness :
    ((World.run (World.init 5 1 0)
      [Op.find_transport GST_WEBRTC_ICE_COMPONENT_RTP,
        Op.find_transport GST_WEBRTC_ICE_COMPONENT_RTCP,
        Op.gather_candidates (some ice_default) true,
        Op.candidate_gathering_done 5,
        Op.gather_candidates (some ice_default) true]).trace.filter
          Effect.is_engine_call = [Effect.gather_candidates 5]) ∧
    (gst_webrtc_ice_stream_find_transport 0 (gst_webrtc_ice_stream_new 5 1)
      GST_WEBRTC_ICE_COMPONENT_RTP).1 = { ptr := 0, component := 0 } :=
  ⟨by decide, (scenario_rtp_rtcp 5 1 0).1⟩

/-! ## C9: the owner is gone -/

/-- C9, as stated, fails: on the stream with id 5 that is not gathered, with an
owner reference that no longer resolves, `gst_webrtc_ice_stream_gather_candidates`
does not return FALSE, nor any value: the assertion `g_assert (ice != NULL)`
fails. -/
theorem gather_candidates_stale_owner_counterexample :
    stream_with_rtcp.priv.gathered = false ∧
    (gst_webrtc_ice_stream_gather_candidates none true stream_with_rtcp).1 =
      Outcome.assertion_failed ∧
    (gst_webrtc_ice_stream_gather_candidates none true stream_with_rtcp).1 ≠
      Outcome.returned false ∧
    ¬ ∃ ret, (gst_webrtc_ice_stream_gather_candidates none true stream_with_rtcp).1 =
      Outcome.returned ret := by
  refine ⟨rfl, rfl, by decide, ?_⟩
  rintro ⟨ret, h⟩
  cases ret <;> exact absurd h (by decide)

/-- C9, amended: on a stream that is not gathered, with an owner reference that
no longer resolves, `gst_webrtc_ice_stream_gather_candidates` ends in the failed
assertion `g_assert (ice != NULL)`; before that it has sent GATHERING to every
registered transport and made no other call, so no engine call; the stream, its
registry and its flags, is unchanged. -/
theorem gather_candidates_stale_owner (engine_result : Bool) (stream : GstWebRTCICEStream)
    (hg : stream.priv.gathered = false) :
    gst_webrtc_ice_stream_gather_candidates none engine_result stream =
      (Outcome.assertion_failed, stream,
        stream.priv.transports.map (fun trans =>
          Effect.gathering_state_change trans GstWebRTCICEGatheringState.GATHERING)) ∧
    (∀ e ∈ (gst_webrtc_ice_stream_gather_candidates none engine_result stream).2.2,
      e.is_engine_call = false) := by
  have h : gst_webrtc_ice_stream_gather_candidates none engine_result stream =
      (Outcome.assertion_failed, stream,
        stream.priv.transports.map (fun trans =>
          Effect.gathering_state_change trans GstWebRTCICEGatheringState.GATHERING)) := by
    simp [gst_webrtc_ice_stream_gather_candidates, hg]
  refine ⟨h, ?_⟩
  intro e he
  rw [h] at he
  obtain ⟨t, _, rfl⟩ := List.mem_map.mp he
  rfl

/-- C9, amended, at the stream with id 5 and one transport. -/
theorem gather_candidates_stale_owner_witness :
    stream_with_rtcp.priv.gathered = false ∧
    gst_webrtc_ice_stream_gather_candidates none false stream_with_rtcp =
      (Outcome.assertion_failed, stream_with_rtcp,
        [Effect.gathering_state_change { ptr := 7, component := 1 }
          GstWebRTCICEGatheringState.GATHERING]) :=
  ⟨rfl, (gather_candidates_stale_owner false stream_with_rtcp rfl).1⟩

/-! ## C10: the gathering state never regresses -/

/-- The call `gst_webrtc_ice_stream_find_transport` changes neither flag. -/
theorem find_transport_flags (heap : Nat) (stream : GstWebRTCICEStream)
    (c : GstWebRTCICEComponent) :
    (gst_webrtc_ice_stream_find_transport heap stream c).2.1.priv.gathered =
        stream.priv.gathered ∧
      (gst_webrtc_ice_stream_find_transport heap stream c).2.1.priv.gathering_started =
        stream.priv.gathering_started := by
  cases h : find_transport_loop c stream.priv.transports with
  | none => rw [find_transport_fresh h]; exact ⟨rfl, rfl⟩
  | some t => rw [find_transport_found h]; exact ⟨rfl, rfl⟩

/-- The call `gst_webrtc_ice_stream_gather_candidates` never changes `gathered`,
`stream_id` or the registry, and never clears `gathering_started`. -/
theorem gather_candidates_flags (ice : Option GstWebRTCICE) (engine_result : Bool)
    (stream : GstWebRTCICEStream) :
    (gst_webrtc_ice_stream_gather_candidates ice engine_result stream).2.1.priv.gathered =
        stream.priv.gathered ∧
      (gst_webrtc_ice_stream_gather_candidates ice engine_result stream).2.1.priv.transports =
        stream.priv.transports ∧
      (gst_webrtc_ice_stream_gather_candidates ice engine_result stream).2.1.stream_id =
        stream.stream_id ∧
      (stream.priv.gathering_started = true →
        (gst_webrtc_ice_stream_gather_candidates ice engine_result
          stream).2.1.priv.gathering_started = true) := by
  unfold gst_webrtc_ice_stream_gather_candidates
  cases ice with
  | none => by_cases hg : stream.priv.gathered = true <;> simp [hg]
  | some ice =>
    by_cases hg : stream.priv.gathered = true
    · simp [hg]
    · by_cases hs : stream.priv.gathering_started = true
      · cases engine_result <;> simp [hg, hs]
      · by_cases hd : ice.min_rtp_port ≠ 0 ∨ ice.max_rtp_port ≠ 65535
        · by_cases hp : ice.min_rtp_port > ice.max_rtp_port
          · simp [hg, hs, hd, hp]
          · cases engine_result <;> simp [hg, hs, hd, hp]
        · cases engine_result <;> simp [hg, hs, hd]

/-- The handler `_on_candidate_gathering_done` never clears a flag. -/
theorem gathering_done_flags (stream_id : Nat) (stream : GstWebRTCICEStream) :
    ∃ stream1, (_on_candidate_gathering_done stream_id (some stream)).1 = some stream1 ∧
      (stream.priv.gathered = true → stream1.priv.gathered = true) ∧
      stream1.priv.gathering_started = stream.priv.gathering_started ∧
      stream1.priv.transports = stream.priv.transports ∧
      stream1.stream_id = stream.stream_id := by
  by_cases h : stream_id = stream.stream_id
  · subst h
    exact ⟨_, (gathering_done_own_stream_eq stream), fun _ => rfl, rfl, rfl, rfl⟩
  · exact ⟨stream, by simp [_on_candidate_gathering_done, h], id, rfl, rfl, rfl⟩

/-- The rank of the gathering state in terms of the two flags. -/
theorem gatheringState_rank (stream : GstWebRTCICEStream) :
    (gatheringState stream).rank =
      if stream.priv.gathered then 2 else if stream.priv.gathering_started then 1 else 0 := by
  unfold gatheringState
  cases stream.priv.gathered <;> cases stream.priv.gathering_started <;> rfl

/-- One operation never lowers the gathering state. -/
theorem step_gatheringState (w : World) (op : Op) :
    (gatheringState w.stream).rank ≤ (gatheringState (w.step op).stream).rank := by
  unfold World.step
  by_cases ha : w.aborted = true
  · simp [ha]
  · simp only [ha, Bool.false_eq_true, if_false]
    rw [gatheringState_rank, gatheringState_rank]
    cases op with
    | find_transport c =>
      obtain ⟨h1, h2⟩ := find_transport_flags w.heap w.stream c
      simp only [h1, h2]
      exact le_refl _
    | gather_candidates ice engine_result =>
      obtain ⟨h1, _, _, h2⟩ := gather_candidates_flags ice engine_result w.stream
      simp only [h1]
      cases hg : w.stream.priv.gathered
      · cases hs : w.stream.priv.gathering_started
        · simp
        · simp [h2 hs]
      · simp
    | candidate_gathering_done stream_id =>
      obtain ⟨s1, e, h1, h2, _, _⟩ := gathering_done_flags stream_id w.stream
      simp only [e, Option.getD_some, h2]
      cases hg : w.stream.priv.gathered
      · cases hs : w.stream.priv.gathering_started <;> cases s1.priv.gathered <;> simp
      · simp [h1 hg]

/-- A sequence of operations never lowers the gathering state. -/
theorem run_gatheringState (w : World) (ops : List Op) :
    (gatheringState w.stream).rank ≤ (gatheringState (w.run ops).stream).rank := by
  induction ops generalizing w with
  | nil => exact le_refl _
  | cons op ops ih =>
    exact le_trans (step_gatheringState w op) (ih (w.step op))

/-- C10: the gathering state read from the flags is IDLE for a newly constructed
stream; no operation (find-transport, gather_candidates, completion event, with
any owner, engine answer and event id) lowers it in the order
IDLE < GATHERING < GATHERED; hence no sequence of operations lowers it between
any two points of a run, and once GATHERED it is GATHERED in every later state. -/
theorem gatheringState_monotone :
    (∀ stream_id handler_id : Nat,
      gatheringState (gst_webrtc_ice_stream_new stream_id handler_id) =
        GatheringState.IDLE) ∧
    (∀ (w : World) (op : Op),
      (gatheringState w.stream).rank ≤ (gatheringState (w.step op).stream).rank) ∧
    (∀ (w : World) (ops later : List Op),
      (gatheringState (w.run ops).stream).rank ≤
        (gatheringState (w.run (ops ++ later)).stream).rank) ∧
    (∀ (w : World) (ops later : List Op),
      gatheringState (w.run ops).stream = GatheringState.GATHERED →
        gatheringState (w.run (ops ++ later)).stream = GatheringState.GATHERED) := by
  have hrun : ∀ (w : World) (ops later : List Op),
      (gatheringState (w.run ops).stream).rank ≤
        (gatheringState (w.run (ops ++ later)).stream).rank := by
    intro w ops later
    have e : w.run (ops ++ later) = (w.run ops).run later := by
      simp [World.run, List.foldl_append]
    rw [e]
    exact run_gatheringState _ later
  refine ⟨fun _ _ => rfl, step_gatheringState, hrun, ?_⟩
  intro w ops later h
  have h2 := hrun w ops later
  rw [h] at h2
  revert h2
  cases gatheringState (w.run (ops ++ later)).stream <;> simp [GatheringState.rank]

/-- C10 on a run from construction: GATHERED is reached after the completion
event and still holds after two further operations. -/
theorem gatheringState_monotone_witness :
    gatheringState ((World.init 5 1 0).run
      [Op.gather_candidates (some ice_default) true,
        Op.candidate_gathering_done 5]).stream = GatheringState.GATHERED ∧
    gatheringState ((World.init 5 1 0).run
      ([Op.gather_candidates (some ice_default) true, Op.candidate_gathering_done 5] ++
        [Op.find_transport 0, Op.gather_candidates none false])).stream =
      GatheringState.GATHERED :=
  ⟨by decide,
    gatheringState_monotone.2.2.2 (World.init 5 1 0)
      [Op.gather_candidates (some ice_default) true, Op.candidate_gathering_done 5]
      [Op.find_transport 0, Op.gather_candidates none false] (by decide)⟩

/-! ## C2: the port range is pushed at most once -/

/-- No state change on a transport is a set-port-range call. -/
theorem countP_set_port_range_state_change (state : GstWebRTCICEGatheringState)
    (l : List GstWebRTCICETransport) :
    List.countP (Effect.is_set_port_range ∘
      fun trans => Effect.gathering_state_change trans state) l = 0 := by
  rw [List.countP_eq_zero]
  intro a _
  simp [Effect.is_set_port_range]

/-- No buffer-size update is a set-port-range call. -/
theorem countP_set_port_range_update (l : List GstWebRTCICETransport) :
    List.countP (Effect.is_set_port_range ∘
      fun trans => Effect.update_buffer_size trans) l = 0 := by
  rw [List.countP_eq_zero]
  intro a _
  simp [Effect.is_set_port_range]

/-- One call of `gst_webrtc_ice_stream_gather_candidates` pushes the port range
only when `gathering_started` is clear, at most once, and then sets the flag. -/
theorem gather_candidates_set_port_range (ice : Option GstWebRTCICE) (engine_result : Bool)
    (stream : GstWebRTCICEStream) :
    (gst_webrtc_ice_stream_gather_candidates ice engine_result stream).2.2.countP
        Effect.is_set_port_range + stream.priv.gathering_started.toNat ≤
      (gst_webrtc_ice_stream_gather_candidates ice engine_result
        stream).2.1.priv.gathering_started.toNat := by
  unfold gst_webrtc_ice_stream_gather_candidates
  cases ice with
  | none =>
    by_cases hg : stream.priv.gathered = true <;>
      simp [hg, List.countP_map, countP_set_port_range_state_change]
  | some ice =>
    by_cases hg : stream.priv.gathered = true
    · simp [hg]
    · by_cases hs : stream.priv.gathering_started = true
      · cases engine_result <;>
          simp [hg, hs, List.countP_append, List.countP_cons, List.countP_map, Effect.is_set_port_range,
            countP_set_port_range_state_change, countP_set_port_range_update]
      · by_cases hd : ice.min_rtp_port ≠ 0 ∨ ice.max_rtp_port ≠ 65535
        · by_cases hp : ice.min_rtp_port > ice.max_rtp_port
          · simp [hg, hs, hd, hp, List.countP_map, countP_set_port_range_state_change]
          · cases engine_result <;>
              simp [hg, hs, hd, hp, List.countP_append, List.countP_cons, List.countP_map,
                Effect.is_set_port_range, countP_set_port_range_state_change,
                countP_set_port_range_update]
        · cases engine_result <;>
            simp [hg, hs, hd, List.countP_append, List.countP_cons, List.countP_map, Effect.is_set_port_range,
              countP_set_port_range_state_change, countP_set_port_range_update]

/-- The handler `_on_candidate_gathering_done` makes no set-port-range call. -/
theorem gathering_done_set_port_range (stream_id : Nat) (stream : GstWebRTCICEStream) :
    (_on_candidate_gathering_done stream_id (some stream)).2.countP
      Effect.is_set_port_range = 0 := by
  by_cases h : stream_id = stream.stream_id
  · simp [_on_candidate_gathering_done, h, List.countP_map, countP_set_port_range_state_change]
  · simp [_on_candidate_gathering_done, h]

/-- One operation keeps the number of set-port-range calls in the trace within
the `gathering_started` flag (0 when clear, 1 when set). -/
theorem step_set_port_range (w : World) (op : Op)
    (h : w.trace.countP Effect.is_set_port_range ≤ w.stream.priv.gathering_started.toNat) :
    (w.step op).trace.countP Effect.is_set_port_range ≤
      (w.step op).stream.priv.gathering_started.toNat := by
  unfold World.step
  by_cases ha : w.aborted = true
  · simpa [ha] using h
  · simp only [ha, Bool.false_eq_true, if_false]
    cases op with
    | find_transport c =>
      simp only [(find_transport_flags w.heap w.stream c).2]
      exact h
    | gather_candidates ice engine_result =>
      have h1 := gather_candidates_set_port_range ice engine_result w.stream
      simp only [List.countP_append]
      omega
    | candidate_gathering_done stream_id =>
      obtain ⟨s1, e, _, h2, _, _⟩ := gathering_done_flags stream_id w.stream
      have h3 := gathering_done_set_port_range stream_id w.stream
      simp only [e, Option.getD_some, h2, List.countP_append, h3]
      exact h

theorem run_set_port_range (w : World) (ops : List Op)
    (h : w.trace.countP Effect.is_set_port_range ≤ w.stream.priv.gathering_started.toNat) :
    (w.run ops).trace.countP Effect.is_set_port_range ≤
      (w.run ops).stream.priv.gathering_started.toNat := by
  induction ops generalizing w with
  | nil => exact h
  | cons op ops ih => exact ih (w.step op) (step_set_port_range w op h)

/-- C2: in the trace of any sequence of operations on a stream, from its
construction on (find-transport calls, `gather_candidates` calls with any owner
state and port values and any engine answer, completion events with any stream
id), the call `nice_agent_set_port_range` occurs at most once. -/
theorem set_port_range_at_most_once (stream_id handler_id heap : Nat) (ops : List Op) :
    ((World.init stream_id handler_id heap).run ops).trace.countP
      Effect.is_set_port_range ≤ 1 := by
  have h := run_set_port_range (World.init stream_id handler_id heap) ops (Nat.zero_le _)
  have h2 : ((World.init stream_id handler_id heap).run ops).stream.priv.gathering_started.toNat
      ≤ 1 := Bool.toNat_le _
  exact le_trans h h2

/-- C2 on a run that asks for gathering three times with three different
non-default port ranges, the engine refusing twice: the port range is pushed
once, with the first range. -/
theorem set_port_range_at_most_once_witness :
    ((World.init 5 1 0).run
      [Op.find_transport 0,
        Op.gather_candidates (some { min_rtp_port := 1000, max_rtp_port := 2000 }) false,
        Op.gather_candidates (some { min_rtp_port := 3000, max_rtp_port := 4000 }) false,
        Op.candidate_gathering_done 6,
        Op.gather_candidates (some { min_rtp_port := 5000, max_rtp_port := 6000 }) true]).trace.countP
      Effect.is_set_port_range ≤ 1 ∧
    ((World.init 5 1 0).run
      [Op.find_transport 0,
        Op.gather_candidates (some { min_rtp_port := 1000, max_rtp_port := 2000 }) false,
        Op.gather_candidates (some { min_rtp_port := 3000, max_rtp_port := 4000 }) false,
        Op.candidate_gathering_done 6,
        Op.gather_candidates (some { min_rtp_port := 5000, max_rtp_port := 6000 }) true]).trace.filter
      Effect.is_set_port_range = [Effect.set_port_range 5 1 1000 2000] :=
  ⟨set_port_range_at_most_once 5 1 0 _, by decide⟩

/-! ## Streams reached from construction are well-formed -/

/-- One operation keeps the registry well-formed. -/
theorem step_registry_wf (w : World) (op : Op) (h : registry_wf w.heap w.stream) :
    registry_wf (w.step op).heap (w.step op).stream := by
  unfold World.step
  by_cases ha : w.aborted = true
  · simpa [ha] using h
  · simp only [ha, Bool.false_eq_true, if_false]
    cases op with
    | find_transport c => exact find_transport_wf w.heap w.stream c h
    | gather_candidates ice engine_result =>
      obtain ⟨_, h2, _, _⟩ := gather_candidates_flags ice engine_result w.stream
      unfold registry_wf
      simp only [h2]
      exact h
    | candidate_gathering_done stream_id =>
      obtain ⟨s1, e, _, _, h2, _⟩ := gathering_done_flags stream_id w.stream
      unfold registry_wf
      simp only [e, Option.getD_some, h2]
      exact h

/-- Every stream reached from its construction by a sequence of operations has
a well-formed registry. -/
theorem run_registry_wf (stream_id handler_id heap : Nat) (ops : List Op) :
    registry_wf ((World.init stream_id handler_id heap).run ops).heap
      ((World.init stream_id handler_id heap).run ops).stream := by
  have key : ∀ (ops : List Op) (w : World), registry_wf w.heap w.stream →
      registry_wf (w.run ops).heap (w.run ops).stream := by
    intro ops
    induction ops with
    | nil => exact fun w h => h
    | cons op ops ih => exact fun w h => ih (w.step op) (step_registry_wf w op h)
  refine key ops _ ⟨?_, ?_⟩
  · exact List.nodup_nil
  · intro t ht
    cases ht

/-! ## The calls of `gst_webrtc_ice_stream_gather_candidates`, case by case -/

/-- A call with an owner reference that no longer resolves, on a stream that is
not gathered: the assertion fails after the GATHERING state changes. -/
theorem gather_candidates_stale_owner_eq (engine_result : Bool) (stream : GstWebRTCICEStream)
    (hg : stream.priv.gathered = false) :
    gst_webrtc_ice_stream_gather_candidates none engine_result stream =
      (Outcome.assertion_failed, stream,
        stream.priv.transports.map (fun trans =>
          Effect.gathering_state_change trans GstWebRTCICEGatheringState.GATHERING)) := by
  simp [gst_webrtc_ice_stream_gather_candidates, hg]

/-- The record of a stream whose `gathering_started` is set is the stream with
the flag set. -/
theorem set_gathering_started_of_set (stream : GstWebRTCICEStream)
    (hs : stream.priv.gathering_started = true) :
    { stream with priv := { stream.priv with gathering_started := true } } = stream := by
  cases stream with
  | mk sid priv =>
    cases priv with
    | mk g t gs h =>
      simp only at hs
      subst hs
      rfl

/-- A call that gets past the port-range step (live owner, and either
`gathering_started` already set or min <= max): it returns what the engine
answers, leaves `gathering_started` set, and makes, in order, the GATHERING state
changes, the set-port-range call when the flag was clear and the range is not
the default one, the gather call, and the buffer-size updates when the engine
accepted. -/
theorem gather_candidates_past (ice : GstWebRTCICE) (engine_result : Bool)
    (stream : GstWebRTCICEStream) (hg : stream.priv.gathered = false)
    (hp : stream.priv.gathering_started = true ∨ ice.min_rtp_port ≤ ice.max_rtp_port) :
    gst_webrtc_ice_stream_gather_candidates (some ice) engine_result stream =
      (Outcome.returned engine_result,
        { stream with priv := { stream.priv with gathering_started := true } },
        stream.priv.transports.map (fun trans =>
            Effect.gathering_state_change trans GstWebRTCICEGatheringState.GATHERING) ++
          (if stream.priv.gathering_started = false ∧
              (ice.min_rtp_port ≠ 0 ∨ ice.max_rtp_port ≠ 65535) then
            [Effect.set_port_range stream.stream_id NICE_COMPONENT_TYPE_RTP
              ice.min_rtp_port ice.max_rtp_port]
          else []) ++
          [Effect.gather_candidates stream.stream_id] ++
          (if engine_result = true then
            stream.priv.transports.map (fun trans => Effect.update_buffer_size trans)
          else [])) := by
  by_cases hs : stream.priv.gathering_started = true
  · have e := set_gathering_started_of_set stream hs
    rw [e]
    cases engine_result <;> simp [gst_webrtc_ice_stream_gather_candidates, hg, hs]
  · have hle : ice.min_rtp_port ≤ ice.max_rtp_port := by
      rcases hp with h | h
      · exact absurd h hs
      · exact h
    have hngt : ¬ ice.min_rtp_port > ice.max_rtp_port := by omega
    have hs2 : stream.priv.gathering_started = false := by
      cases h : stream.priv.gathering_started
      · rfl
      · exact absurd h hs
    by_cases hd : ice.min_rtp_port ≠ 0 ∨ ice.max_rtp_port ≠ 65535
    · cases engine_result <;>
        simp [gst_webrtc_ice_stream_gather_candidates, hg, hs2, hd, hngt]
    · cases engine_result <;>
        simp [gst_webrtc_ice_stream_gather_candidates, hg, hs2, hd]

/-! ## C11: one transport per component -/

/-- The call `gst_webrtc_ice_stream_find_transport` keeps the components of the
registry pairwise distinct. -/
theorem find_transport_components_nodup (heap : Nat) (stream : GstWebRTCICEStream)
    (c : GstWebRTCICEComponent)
    (h : (stream.priv.transports.map (fun trans => trans.component)).Nodup) :
    ((gst_webrtc_ice_stream_find_transport heap stream c).2.1.priv.transports.map
      (fun trans => trans.component)).Nodup := by
  cases hf : find_transport_loop c stream.priv.transports with
  | some u => rw [find_transport_found hf]; exact h
  | none =>
    rw [find_transport_fresh hf]
    simp only [List.map_cons, List.nodup_cons]
    refine ⟨?_, h⟩
    intro hmem
    obtain ⟨u, hu, hc⟩ := List.mem_map.mp hmem
    exact find_transport_loop_none hf u hu hc

/-- One operation keeps the components of the registry pairwise distinct. -/
theorem step_components_nodup (w : World) (op : Op)
    (h : (w.stream.priv.transports.map (fun trans => trans.component)).Nodup) :
    ((w.step op).stream.priv.transports.map (fun trans => trans.component)).Nodup := by
  unfold World.step
  by_cases ha : w.aborted = true
  · simpa [ha] using h
  · simp only [ha, Bool.false_eq_true, if_false]
    cases op with
    | find_transport c => exact find_transport_components_nodup w.heap w.stream c h
    | gather_candidates ice engine_result =>
      obtain ⟨_, h2, _, _⟩ := gather_candidates_flags ice engine_result w.stream
      simp only [h2]
      exact h
    | candidate_gathering_done stream_id =>
      obtain ⟨s1, e, _, _, h2, _⟩ := gathering_done_flags stream_id w.stream
      simp only [e, Option.getD_some, h2]
      exact h

/-- A sequence of operations keeps the components of the registry pairwise
distinct. -/
theorem run_components_nodup (w : World) (ops : List Op)
    (h : (w.stream.priv.transports.map (fun trans => trans.component)).Nodup) :
    ((w.run ops).stream.priv.transports.map (fun trans => trans.component)).Nodup := by
  induction ops generalizing w with
  | nil => exact h
  | cons op ops ih => exact ih (w.step op) (step_components_nodup w op h)

/-- C11: in every state reached from a newly constructed stream by find-transport,
`gather_candidates` and completion-event steps, the components of the registered
transports are pairwise distinct, so two registered transports with the same
component are the same entry; `gather_candidates` and the completion handler
return the stream with the very same registry list (nothing added, removed or
reordered), also as steps of a run. -/
theorem registry_one_per_component :
    (∀ (stream_id handler_id heap : Nat) (ops : List Op),
      (((World.init stream_id handler_id heap).run ops).stream.priv.transports.map
        (fun trans => trans.component)).Nodup) ∧
    (∀ (stream_id handler_id heap : Nat) (ops : List Op) (t u : GstWebRTCICETransport),
      t ∈ ((World.init stream_id handler_id heap).run ops).stream.priv.transports →
      u ∈ ((World.init stream_id handler_id heap).run ops).stream.priv.transports →
      t.component = u.component → t = u) ∧
    (∀ (ice : Option GstWebRTCICE) (engine_result : Bool) (stream : GstWebRTCICEStream),
      (gst_webrtc_ice_stream_gather_candidates ice engine_result stream).2.1.priv.transports =
        stream.priv.transports) ∧
    (∀ (stream_id : Nat) (stream : GstWebRTCICEStream),
      ∃ stream1, (_on_candidate_gathering_done stream_id (some stream)).1 = some stream1 ∧
        stream1.priv.transports = stream.priv.transports) ∧
    (∀ (w : World) (ice : Option GstWebRTCICE) (engine_result : Bool),
      (w.step (Op.gather_candidates ice engine_result)).stream.priv.transports =
        w.stream.priv.transports) ∧
    (∀ (w : World) (stream_id : Nat),
      (w.step (Op.candidate_gathering_done stream_id)).stream.priv.transports =
        w.stream.priv.transports) := by
  have hnd : ∀ (stream_id handler_id heap : Nat) (ops : List Op),
      (((World.init stream_id handler_id heap).run ops).stream.priv.transports.map
        (fun trans => trans.component)).Nodup :=
    fun stream_id handler_id heap ops =>
      run_components_nodup (World.init stream_id handler_id heap) ops List.nodup_nil
  refine ⟨hnd, ?_, ?_, ?_, ?_, ?_⟩
  · intro stream_id handler_id heap ops t u ht hu hc
    exact List.inj_on_of_nodup_map (hnd stream_id handler_id heap ops) ht hu hc
  · intro ice engine_result stream
    exact (gather_candidates_flags ice engine_result stream).2.1
  · intro stream_id stream
    obtain ⟨s1, e, _, _, h2, _⟩ := gathering_done_flags stream_id stream
    exact ⟨s1, e, h2⟩
  · intro w ice engine_result
    unfold World.step
    by_cases ha : w.aborted = true
    · simp [ha]
    · simp only [ha, Bool.false_eq_true, if_false]
      exact (gather_candidates_flags ice engine_result w.stream).2.1
  · intro w stream_id
    unfold World.step
    by_cases ha : w.aborted = true
    · simp [ha]
    · simp only [ha, Bool.false_eq_true, if_false]
      obtain ⟨s1, e, _, _, h2, _⟩ := gathering_done_flags stream_id w.stream
      simp only [e, Option.getD_some, h2]

/-- C11 on a run that asks for RTP twice and RTCP twice around a gathering: the
registry ends with two transports, RTCP at address 1 and RTP at address 0. -/
theorem registry_one_per_component_witness :
    ((World.init 5 1 0).run
      [Op.find_transport 0, Op.find_transport 1, Op.find_transport 0,
        Op.gather_candidates (some ice_default) true, Op.find_transport 1,
        Op.candidate_gathering_done 5]).stream.priv.transports =
      [{ ptr := 1, component := 1 }, { ptr := 0, component := 0 }] ∧
    (((World.init 5 1 0).run
      [Op.find_transport 0, Op.find_transport 1, Op.find_transport 0,
        Op.gather_candidates (some ice_default) true, Op.find_transport 1,
        Op.candidate_gathering_done 5]).stream.priv.transports.map
          (fun trans => trans.component)).Nodup :=
  ⟨by decide, registry_one_per_component.1 5 1 0 _⟩

/-! ## C12: GATHERING is sent first -/

/-- A call that fails the port-range validation: FALSE, the same stream, and only
the GATHERING state changes. -/
theorem gather_candidates_invalid_eq (ice : GstWebRTCICE) (engine_result : Bool)
    (stream : GstWebRTCICEStream) (hg : stream.priv.gathered = false)
    (hs : stream.priv.gathering_started = false)
    (hp : ice.min_rtp_port > ice.max_rtp_port) :
    gst_webrtc_ice_stream_gather_candidates (some ice) engine_result stream =
      (Outcome.returned false, stream,
        stream.priv.transports.map (fun trans =>
          Effect.gathering_state_change trans GstWebRTCICEGatheringState.GATHERING)) := by
  have h0 : ice.min_rtp_port ≠ 0 := by omega
  simp [gst_webrtc_ice_stream_gather_candidates, hg, hs, hp, h0]

/-- The calls of one `gst_webrtc_ice_stream_gather_candidates` on a stream that
is not gathered: first the GATHERING state changes over the registry, then
calls that are set-port-range, gather or buffer-size updates. -/
theorem gather_candidates_effects (ice : Option GstWebRTCICE) (engine_result : Bool)
    (stream : GstWebRTCICEStream) (hg : stream.priv.gathered = false) :
    ∃ rest : List Effect,
      (gst_webrtc_ice_stream_gather_candidates ice engine_result stream).2.2 =
        stream.priv.transports.map (fun trans =>
          Effect.gathering_state_change trans GstWebRTCICEGatheringState.GATHERING) ++ rest ∧
      ∀ e ∈ rest, ∀ (t : GstWebRTCICETransport) (state : GstWebRTCICEGatheringState),
        e ≠ Effect.gathering_state_change t state := by
  cases ice with
  | none =>
    refine ⟨[], ?_, fun e he => absurd he (List.not_mem_nil e)⟩
    rw [(gather_candidates_stale_owner_eq engine_result stream hg)]
    simp
  | some ice =>
    by_cases hp : stream.priv.gathering_started = true ∨ ice.min_rtp_port ≤ ice.max_rtp_port
    · rw [gather_candidates_past ice engine_result stream hg hp]
      refine ⟨_, by simp only [List.append_assoc]; rfl, ?_⟩
      intro e he t state
      simp only [List.mem_append, List.mem_singleton] at he
      rcases he with he | he | he
      · split_ifs at he
        · rw [List.mem_singleton.mp he]; exact fun h => Effect.noConfusion h
        · cases he
      · rw [he]; exact fun h => Effect.noConfusion h
      · split_ifs at he
        · obtain ⟨u, _, rfl⟩ := List.mem_map.mp he
          exact fun h => Effect.noConfusion h
        · cases he
    · have hs : stream.priv.gathering_started = false := by
        cases h : stream.priv.gathering_started
        · rfl
        · exact absurd (Or.inl h) hp
      have hgt : ice.min_rtp_port > ice.max_rtp_port := by
        by_contra hle
        exact hp (Or.inr (by omega))
      refine ⟨[], ?_, fun e he => absurd he (List.not_mem_nil e)⟩
      rw [gather_candidates_invalid_eq ice engine_result stream hg hs hgt]
      simp

/-- C12: every `gst_webrtc_ice_stream_gather_candidates` call on a stream that is
not gathered, whatever the owner reference resolves to, whatever the port range
and whatever the engine answers (so whatever the outcome), first sends the
GATHERING state change over the registry and then makes no further state change:
all engine calls come after; each transport gets GATHERING as many times as it
is in the registry, which on a well-formed registry is exactly once for a
registered transport and never for another. -/
theorem gather_candidates_started_first (ice : Option GstWebRTCICE) (engine_result : Bool)
    (stream : GstWebRTCICEStream) (hg : stream.priv.gathered = false) :
    (∃ rest : List Effect,
      (gst_webrtc_ice_stream_gather_candidates ice engine_result stream).2.2 =
        stream.priv.transports.map (fun trans =>
          Effect.gathering_state_change trans GstWebRTCICEGatheringState.GATHERING) ++ rest ∧
      (∀ e ∈ rest, ∀ (t : GstWebRTCICETransport) (state : GstWebRTCICEGatheringState),
        e ≠ Effect.gathering_state_change t state) ∧
      (∀ e ∈ stream.priv.transports.map (fun trans =>
          Effect.gathering_state_change trans GstWebRTCICEGatheringState.GATHERING),
        e.is_engine_call = false)) ∧
    (∀ t : GstWebRTCICETransport,
      (gst_webrtc_ice_stream_gather_candidates ice engine_result stream).2.2.count
        (Effect.gathering_state_change t GstWebRTCICEGatheringState.GATHERING) =
          stream.priv.transports.count t) ∧
    (∀ heap : Nat, registry_wf heap stream → ∀ t : GstWebRTCICETransport,
      (gst_webrtc_ice_stream_gather_candidates ice engine_result stream).2.2.count
        (Effect.gathering_state_change t GstWebRTCICEGatheringState.GATHERING) =
          if t ∈ stream.priv.transports then 1 else 0) := by
  obtain ⟨rest, he, hrest⟩ := gather_candidates_effects ice engine_result stream hg
  have hcount : ∀ t : GstWebRTCICETransport,
      (gst_webrtc_ice_stream_gather_candidates ice engine_result stream).2.2.count
        (Effect.gathering_state_change t GstWebRTCICEGatheringState.GATHERING) =
          stream.priv.transports.count t := by
    intro t
    rw [he, List.count_append, count_gathering_state_change]
    have h0 : rest.count
        (Effect.gathering_state_change t GstWebRTCICEGatheringState.GATHERING) = 0 :=
      List.count_eq_zero_of_not_mem (fun hm => hrest _ hm t _ rfl)
    omega
  refine ⟨⟨rest, he, hrest, ?_⟩, hcount, ?_⟩
  · intro e hm
    obtain ⟨u, _, rfl⟩ := List.mem_map.mp hm
    rfl
  · intro heap hwf t
    rw [hcount t]
    by_cases ht : t ∈ stream.priv.transports
    · rw [if_pos ht]
      exact List.count_eq_one_of_mem (registry_wf_nodup hwf) ht
    · rw [if_neg ht]
      exact List.count_eq_zero_of_not_mem ht

/-- C12 at the stream with one transport and the range min = 50000, max = 40000:
the call fails, and the transport has got GATHERING once. -/
theorem gather_candidates_started_first_witness :
    stream_with_rtcp.priv.gathered = false ∧
    (gst_webrtc_ice_stream_gather_candidates (some ice_bad_range) true
      stream_with_rtcp).1 = Outcome.returned false ∧
    (gst_webrtc_ice_stream_gather_candidates (some ice_bad_range) true
      stream_with_rtcp).2.2.count
        (Effect.gathering_state_change { ptr := 7, component := 1 }
          GstWebRTCICEGatheringState.GATHERING) = 1 :=
  ⟨rfl, by decide,
    (gather_candidates_started_first (some ice_bad_range) true stream_with_rtcp rfl).2.2 8
      (by decide) { ptr := 7, component := 1 }⟩

/-! ## C13: the result is the engine's answer -/

/-- The number of buffer-size updates a list of transports gives to one transport
is the number of times the transport is in the list. -/
theorem count_update_buffer_size (t : GstWebRTCICETransport)
    (l : List GstWebRTCICETransport) :
    (l.map (fun trans => Effect.update_buffer_size trans)).count
        (Effect.update_buffer_size t) = l.count t := by
  induction l with
  | nil => rfl
  | cons a l ih =>
    by_cases h : a = t
    · subst h
      simp [ih]
    · have h2 : Effect.update_buffer_size t ≠ Effect.update_buffer_size a := by
        intro e
        injection e with e1
        exact h e1.symm
      rw [List.map_cons, List.count_cons_of_ne h2, List.count_cons_of_ne (Ne.symm h), ih]

/-- The buffer-size updates of a call that gets past the port-range step: one per
registry entry when the engine accepted, none when it refused. -/
theorem gather_candidates_past_updates (ice : GstWebRTCICE) (engine_result : Bool)
    (stream : GstWebRTCICEStream) (hg : stream.priv.gathered = false)
    (hp : stream.priv.gathering_started = true ∨ ice.min_rtp_port ≤ ice.max_rtp_port)
    (t : GstWebRTCICETransport) :
    (gst_webrtc_ice_stream_gather_candidates (some ice) engine_result stream).2.2.count
      (Effect.update_buffer_size t) =
        if engine_result = true then stream.priv.transports.count t else 0 := by
  rw [gather_candidates_past ice engine_result stream hg hp]
  simp only [List.count_append]
  have h1 : (stream.priv.transports.map (fun trans =>
      Effect.gathering_state_change trans GstWebRTCICEGatheringState.GATHERING)).count
      (Effect.update_buffer_size t) = 0 := by
    apply List.count_eq_zero_of_not_mem
    intro hm
    obtain ⟨u, _, hu⟩ := List.mem_map.mp hm
    exact Effect.noConfusion hu
  have h2 : (if stream.priv.gathering_started = false ∧
        (ice.min_rtp_port ≠ 0 ∨ ice.max_rtp_port ≠ 65535) then
      [Effect.set_port_range stream.stream_id NICE_COMPONENT_TYPE_RTP
        ice.min_rtp_port ice.max_rtp_port]
      else []).count (Effect.update_buffer_size t) = 0 := by
    split_ifs <;> simp
  have h3 : [Effect.gather_candidates stream.stream_id].count
      (Effect.update_buffer_size t) = 0 := by simp
  rw [h1, h2, h3]
  cases engine_result
  · simp
  · simp [count_update_buffer_size]

/-- C13: a `gst_webrtc_ice_stream_gather_candidates` call on a stream that is not
gathered and that gets past the port-range step (the owner is live, and
`gathering_started` is already set or min <= max) returns exactly what the
engine's gather call answered; each transport is asked to update its buffer size
as many times as it is in the registry when the engine accepted, so exactly once
for a registered transport on a well-formed registry, and no transport is asked
at all when the engine refused. -/
theorem gather_candidates_engine_result (ice : GstWebRTCICE) (engine_result : Bool)
    (stream : GstWebRTCICEStream) (hg : stream.priv.gathered = false)
    (hp : stream.priv.gathering_started = true ∨ ice.min_rtp_port ≤ ice.max_rtp_port) :
    (gst_webrtc_ice_stream_gather_candidates (some ice) engine_result stream).1 =
      Outcome.returned engine_result ∧
    (∀ t : GstWebRTCICETransport,
      (gst_webrtc_ice_stream_gather_candidates (some ice) engine_result stream).2.2.count
        (Effect.update_buffer_size t) =
          if engine_result = true then stream.priv.transports.count t else 0) ∧
    (∀ heap : Nat, registry_wf heap stream → ∀ t : GstWebRTCICETransport,
      (gst_webrtc_ice_stream_gather_candidates (some ice) engine_result stream).2.2.count
        (Effect.update_buffer_size t) =
          if engine_result = true ∧ t ∈ stream.priv.transports then 1 else 0) := by
  refine ⟨by rw [gather_candidates_past ice engine_result stream hg hp], ?_, ?_⟩
  · exact gather_candidates_past_updates ice engine_result stream hg hp
  · intro heap hwf t
    rw [gather_candidates_past_updates ice engine_result stream hg hp t]
    cases engine_result
    · simp
    · by_cases ht : t ∈ stream.priv.transports
      · simp [ht, List.count_eq_one_of_mem (registry_wf_nodup hwf) ht]
      · simp [ht, List.count_eq_zero_of_not_mem ht]

/-- C13 at the stream with one transport, the default range and an engine that
accepts: TRUE, and the transport is asked once to update its buffer size. -/
theorem gather_candidates_engine_result_witness :
    stream_with_rtcp.priv.gathered = false ∧
    (stream_with_rtcp.priv.gathering_started = true ∨
      ice_default.min_rtp_port ≤ ice_default.max_rtp_port) ∧
    (gst_webrtc_ice_stream_gather_candidates (some ice_default) true stream_with_rtcp).1 =
      Outcome.returned true ∧
    (gst_webrtc_ice_stream_gather_candidates (some ice_default) true
      stream_with_rtcp).2.2.count (Effect.update_buffer_size { ptr := 7, component := 1 }) = 1 :=
  ⟨rfl, by decide,
    (gather_candidates_engine_result ice_default true stream_with_rtcp rfl (by decide)).1,
    by decide⟩

/-! ## C14: one gather call per call, no retry -/

/-- No state change on a transport is a gather call. -/
theorem filter_gather_call_state_change (state : GstWebRTCICEGatheringState)
    (l : List GstWebRTCICETransport) :
    (l.map (fun trans => Effect.gathering_state_change trans state)).filter
      Effect.is_gather_call = [] := by
  rw [List.filter_eq_nil_iff]
  intro e he
  obtain ⟨u, _, rfl⟩ := List.mem_map.mp he
  simp [Effect.is_gather_call]

/-- No buffer-size update is a gather call. -/
theorem filter_gather_call_update (l : List GstWebRTCICETransport) :
    (l.map (fun trans => Effect.update_buffer_size trans)).filter
      Effect.is_gather_call = [] := by
  rw [List.filter_eq_nil_iff]
  intro e he
  obtain ⟨u, _, rfl⟩ := List.mem_map.mp he
  simp [Effect.is_gather_call]

/-- A call that gets past the port-range step makes exactly one gather call, for
the stream's own id. -/
theorem gather_candidates_past_gather (ice : GstWebRTCICE) (engine_result : Bool)
    (stream : GstWebRTCICEStream) (hg : stream.priv.gathered = false)
    (hp : stream.priv.gathering_started = true ∨ ice.min_rtp_port ≤ ice.max_rtp_port) :
    (gst_webrtc_ice_stream_gather_candidates (some ice) engine_result stream).2.2.filter
      Effect.is_gather_call = [Effect.gather_candidates stream.stream_id] := by
  rw [gather_candidates_past ice engine_result stream hg hp]
  simp only [List.filter_append, filter_gather_call_state_change]
  have h2 : (if stream.priv.gathering_started = false ∧
        (ice.min_rtp_port ≠ 0 ∨ ice.max_rtp_port ≠ 65535) then
      [Effect.set_port_range stream.stream_id NICE_COMPONENT_TYPE_RTP
        ice.min_rtp_port ice.max_rtp_port]
      else []).filter Effect.is_gather_call = [] := by
    split_ifs <;> simp [Effect.is_gather_call]
  have h3 : (if engine_result = true then
      stream.priv.transports.map (fun trans => Effect.update_buffer_size trans)
      else []).filter Effect.is_gather_call = [] := by
    split_ifs
    · exact filter_gather_call_update _
    · rfl
  rw [h2, h3]
  simp [Effect.is_gather_call]

/-- A call on a stream with `gathering_started` already set makes no
set-port-range call. -/
theorem gather_candidates_started_no_push (ice : GstWebRTCICE) (engine_result : Bool)
    (stream : GstWebRTCICEStream) (hs : stream.priv.gathering_started = true) :
    (gst_webrtc_ice_stream_gather_candidates (some ice) engine_result stream).2.2.filter
      Effect.is_set_port_range = [] := by
  have h := gather_candidates_set_port_range (some ice) engine_result stream
  have h1 : (gst_webrtc_ice_stream_gather_candidates (some ice) engine_result
      stream).2.1.priv.gathering_started.toNat ≤ 1 := Bool.toNat_le _
  rw [hs] at h
  have h0 : (gst_webrtc_ice_stream_gather_candidates (some ice) engine_result
      stream).2.2.countP Effect.is_set_port_range = 0 := by
    simp only [Bool.toNat_true] at h
    omega
  rw [List.filter_eq_nil_iff]
  intro e he
  have := List.countP_eq_zero.mp h0 e he
  simpa using this

/-- C14: every `gst_webrtc_ice_stream_gather_candidates` call makes no gather call
or exactly one, and that one carries the stream's own `stream_id`; a call on a
stream that is not gathered and that gets past the port-range step makes exactly
one; and after such a call that the engine refused, the stream is still not
gathered and has `gathering_started` set, so a later call with a live owner,
whatever its port range, asks the engine again, exactly once, and makes no
set-port-range call. -/
theorem gather_candidates_one_gather :
    (∀ (ice : Option GstWebRTCICE) (engine_result : Bool) (stream : GstWebRTCICEStream),
      (gst_webrtc_ice_stream_gather_candidates ice engine_result stream).2.2.filter
          Effect.is_gather_call = [] ∨
        (gst_webrtc_ice_stream_gather_candidates ice engine_result stream).2.2.filter
          Effect.is_gather_call = [Effect.gather_candidates stream.stream_id]) ∧
    (∀ (ice : GstWebRTCICE) (engine_result : Bool) (stream : GstWebRTCICEStream),
      stream.priv.gathered = false →
      (stream.priv.gathering_started = true ∨ ice.min_rtp_port ≤ ice.max_rtp_port) →
      (gst_webrtc_ice_stream_gather_candidates (some ice) engine_result stream).2.2.filter
        Effect.is_gather_call = [Effect.gather_candidates stream.stream_id]) ∧
    (∀ (ice later_ice : GstWebRTCICE) (later_result : Bool) (stream : GstWebRTCICEStream),
      stream.priv.gathered = false →
      (stream.priv.gathering_started = true ∨ ice.min_rtp_port ≤ ice.max_rtp_port) →
      (gst_webrtc_ice_stream_gather_candidates (some ice) false stream).1 =
        Outcome.returned false ∧
      (gst_webrtc_ice_stream_gather_candidates (some later_ice) later_result
        (gst_webrtc_ice_stream_gather_candidates (some ice) false stream).2.1).1 =
          Outcome.returned later_result ∧
      (gst_webrtc_ice_stream_gather_candidates (some later_ice) later_result
        (gst_webrtc_ice_stream_gather_candidates (some ice) false stream).2.1).2.2.filter
          Effect.is_gather_call = [Effect.gather_candidates stream.stream_id] ∧
      (gst_webrtc_ice_stream_gather_candidates (some later_ice) later_result
        (gst_webrtc_ice_stream_gather_candidates (some ice) false stream).2.1).2.2.filter
          Effect.is_set_port_range = []) := by
  refine ⟨?_, ?_, ?_⟩
  · intro ice engine_result stream
    cases hg : stream.priv.gathered
    · cases ice with
      | none =>
        left
        rw [gather_candidates_stale_owner_eq engine_result stream hg]
        exact filter_gather_call_state_change _ _
      | some ice =>
        by_cases hp : stream.priv.gathering_started = true ∨
            ice.min_rtp_port ≤ ice.max_rtp_port
        · right
          exact gather_candidates_past_gather ice engine_result stream hg hp
        · left
          have hs : stream.priv.gathering_started = false := by
            cases h : stream.priv.gathering_started
            · rfl
            · exact absurd (Or.inl h) hp
          have hgt : ice.min_rtp_port > ice.max_rtp_port := by
            by_contra hle
            exact hp (Or.inr (by omega))
          rw [gather_candidates_invalid_eq ice engine_result stream hg hs hgt]
          exact filter_gather_call_state_change _ _
    · left
      rw [gather_candidates_gathered ice engine_result stream hg]
      rfl
  · intro ice engine_result stream hg hp
    exact gather_candidates_past_gather ice engine_result stream hg hp
  · intro ice later_ice later_result stream hg hp
    have e := gather_candidates_past ice false stream hg hp
    have hg1 : (gst_webrtc_ice_stream_gather_candidates (some ice) false
        stream).2.1.priv.gathered = false := by rw [e]; exact hg
    have hs1 : (gst_webrtc_ice_stream_gather_candidates (some ice) false
        stream).2.1.priv.gathering_started = true := by rw [e]
    have hid : (gst_webrtc_ice_stream_gather_candidates (some ice) false
        stream).2.1.stream_id = stream.stream_id := by rw [e]
    refine ⟨by rw [e], ?_, ?_, ?_⟩
    · rw [gather_candidates_past later_ice later_result _ hg1 (Or.inl hs1)]
    · rw [gather_candidates_past_gather later_ice later_result _ hg1 (Or.inl hs1), hid]
    · exact gather_candidates_started_no_push later_ice later_result _ hs1

/-- C14 at the stream with one transport: a first call with the range 1000 to
2000 that the engine refuses, then a second call with the range 3000 to 4000:
the second call asks the engine to gather for stream 5 and pushes no range. -/
theorem gather_candidates_one_gather_witness :
    stream_with_rtcp.priv.gathered = false ∧
    (gst_webrtc_ice_stream_gather_candidates
      (some { min_rtp_port := 3000, max_rtp_port := 4000 }) true
      (gst_webrtc_ice_stream_gather_candidates
        (some { min_rtp_port := 1000, max_rtp_port := 2000 }) false
        stream_with_rtcp).2.1).2.2.filter Effect.is_gather_call =
          [Effect.gather_candidates 5] :=
  ⟨rfl,
    (gather_candidates_one_gather.2.2 { min_rtp_port := 1000, max_rtp_port := 2000 }
      { min_rtp_port := 3000, max_rtp_port := 4000 } true stream_with_rtcp rfl
      (by decide)).2.2.1⟩

/-! ## C15: when the port range is pushed -/

/-- C15, as stated, fails: on the stream with id 5, a first call runs with the
default range configured (the engine refuses) and pushes no port range; the
range is then configured to 1000 to 2000; the second call, on a stream that is
not gathered and for which no port range was ever pushed, pushes no port range
either: the whole trace holds no set-port-range call. -/
theorem gather_candidates_push_counterexample :
    ((World.init 5 1 0).run
      [Op.gather_candidates (some ice_default) false]).stream.priv.gathered = false ∧
    ((World.init 5 1 0).run
      [Op.gather_candidates (some ice_default) false]).trace.filter
        Effect.is_set_port_range = [] ∧
    (gst_webrtc_ice_stream_gather_candidates
      (some { min_rtp_port := 1000, max_rtp_port := 2000 }) true
      ((World.init 5 1 0).run
        [Op.gather_candidates (some ice_default) false]).stream).2.2.filter
          Effect.is_set_port_range = [] ∧
    ((World.init 5 1 0).run
      [Op.gather_candidates (some ice_default) false,
        Op.gather_candidates (some { min_rtp_port := 1000, max_rtp_port := 2000 }) true]).trace.filter
          Effect.is_set_port_range = [] := by
  decide

/-- C15, amended: a `gst_webrtc_ice_stream_gather_candidates` call on a stream
that is not gathered and whose `gathering_started` flag is clear, with a live
owner configured with a non-default range (min != 0 or max != 65535) with
min <= max, makes exactly one set-port-range call, with the stream's id, the RTP
component and that min and max, before its gather call, and leaves
`gathering_started` set; a call on a stream whose `gathering_started` flag is
already set (an earlier call got past the port-range step, also with the default
range) makes no set-port-range call. -/
theorem gather_candidates_push (ice : GstWebRTCICE) (engine_result : Bool)
    (stream : GstWebRTCICEStream) :
    (stream.priv.gathered = false → stream.priv.gathering_started = false →
      (ice.min_rtp_port ≠ 0 ∨ ice.max_rtp_port ≠ 65535) →
      ice.min_rtp_port ≤ ice.max_rtp_port →
      (gst_webrtc_ice_stream_gather_candidates (some ice) engine_result stream).2.2.filter
          Effect.is_engine_call =
        [Effect.set_port_range stream.stream_id NICE_COMPONENT_TYPE_RTP
            ice.min_rtp_port ice.max_rtp_port,
          Effect.gather_candidates stream.stream_id] ∧
      (gst_webrtc_ice_stream_gather_candidates (some ice) engine_result
        stream).2.1.priv.gathering_started = true) ∧
    (stream.priv.gathering_started = true →
      (gst_webrtc_ice_stream_gather_candidates (some ice) engine_result stream).2.2.filter
        Effect.is_set_port_range = []) := by
  refine ⟨?_, gather_candidates_started_no_push ice engine_result stream⟩
  intro hg hs hd hle
  rw [gather_candidates_past ice engine_result stream hg (Or.inr hle)]
  refine ⟨?_, rfl⟩
  have h1 : (stream.priv.transports.map (fun trans =>
      Effect.gathering_state_change trans GstWebRTCICEGatheringState.GATHERING)).filter
      Effect.is_engine_call = [] := by
    rw [List.filter_eq_nil_iff]
    intro e he
    obtain ⟨u, _, rfl⟩ := List.mem_map.mp he
    simp [Effect.is_engine_call]
  have h3 : (if engine_result = true then
      stream.priv.transports.map (fun trans => Effect.update_buffer_size trans)
      else []).filter Effect.is_engine_call = [] := by
    rw [List.filter_eq_nil_iff]
    intro e he
    split_ifs at he
    · obtain ⟨u, _, rfl⟩ := List.mem_map.mp he
      simp [Effect.is_engine_call]
    · cases he
  simp only [List.filter_append, h1, h3, hs, hd, and_self, if_true]
  simp [Effect.is_engine_call]

/-- C15, amended, at the stream with id 5 and the range 1000 to 2000. -/
theorem gather_candidates_push_witness :
    stream_with_rtcp.priv.gathered = false ∧
    stream_with_rtcp.priv.gathering_started = false ∧
    (gst_webrtc_ice_stream_gather_candidates
      (some { min_rtp_port := 1000, max_rtp_port := 2000 }) true
      stream_with_rtcp).2.2.filter Effect.is_engine_call =
        [Effect.set_port_range 5 1 1000 2000, Effect.gather_candidates 5] :=
  ⟨rfl, rfl,
    ((gather_candidates_push { min_rtp_port := 1000, max_rtp_port := 2000 } true
      stream_with_rtcp).1 rfl rfl (by decide) (by decide)).1⟩

end IceStream

namespace GES

/-! ## C16: the field check -/

theorem check_field_loop_iff (field : String) (fields : List String) :
    check_field_loop field fields = true ↔ field ∈ fields := by
  induction fields with
  | nil => simp [check_field_loop]
  | cons f rest ih =>
    unfold check_field_loop
    by_cases h : f = field
    · simp [h]
    · have h2 : ¬ field = f := fun e => h e.symm
      simp [h, h2, ih]

/-- The callback `_check_field` over all fields: it never stops the iteration,
keeps the valid list, and appends the names that are not valid, in order. -/
theorem foreach_check_field (fields : List (String × GValue)) (fields_error : FieldsError) :
    gst_structure_foreach _check_field fields fields_error =
      (true, { fields_error with
        invalid_fields := fields_error.invalid_fields ++
          (fields.map (fun f => f.1)).filter
            (fun field => decide (field ∉ fields_error.fields)) }) := by
  induction fields generalizing fields_error with
  | nil => simp [gst_structure_foreach]
  | cons f rest ih =>
    unfold gst_structure_foreach
    by_cases h : f.1 ∈ fields_error.fields
    · have hl := (check_field_loop_iff f.1 fields_error.fields).mpr h
      simp [_check_field, hl, ih, h]
    · have hl : check_field_loop f.1 fields_error.fields = false := by
        cases hc : check_field_loop f.1 fields_error.fields
        · rfl
        · exact absurd ((check_field_loop_iff _ _).mp hc) h
      simp [_check_field, hl, ih, h]

/-- The unknown fields `_check_fields` collects are `unknown_fields`. -/
theorem check_fields_invalid (struct : GstStructure) (valid : List String) :
    (gst_structure_foreach _check_field struct.fields
      { fields := valid, invalid_fields := [] }).2.invalid_fields =
        unknown_fields struct valid := by
  rw [foreach_check_field]
  simp [unknown_fields]

/-- The message is its heading followed by each unknown field after a blank, in
order. -/
theorem check_fields_msg_eq (struct_name : String) (invalid_fields : List String) :
    check_fields_msg struct_name invalid_fields =
      ("Unknown propert" ++ (if invalid_fields.length > 1 then "ies" else "y") ++ " in " ++
        (if struct_name.utf8ByteSize > 1 then "--" else "-") ++ struct_name ++ ":") ++
      invalid_fields.foldr (fun field rest => " " ++ field ++ rest) "" := by
  unfold check_fields_msg
  generalize ("Unknown propert" ++ (if invalid_fields.length > 1 then "ies" else "y") ++
    " in " ++ (if struct_name.utf8ByteSize > 1 then "--" else "-") ++ struct_name ++ ":") = init
  induction invalid_fields generalizing init with
  | nil => simp
  | cons f rest ih =>
    simp only [List.foldl_cons, List.foldr_cons]
    rw [ih]
    simp only [String.append_assoc]

/-- The result of `_check_fields` on a structure and a valid list, with the
unknown list empty at the call as every caller has it. -/
theorem check_fields_eq (struct : GstStructure) (valid : List String)
    (error : Option (Option GError)) :
    _check_fields struct { fields := valid, invalid_fields := [] } error =
      if unknown_fields struct valid ≠ [] then
        (false,
          match error with
          | some _ => some (some (check_fields_msg struct.name (unknown_fields struct valid)))
          | none => none)
      else (true, error) := by
  unfold _check_fields
  simp only [check_fields_invalid]

theorem unknown_fields_eq_nil (struct : GstStructure) (valid : List String) :
    unknown_fields struct valid = [] ↔ ∀ f ∈ struct.fields, f.1 ∈ valid := by
  unfold unknown_fields
  rw [List.filter_eq_nil_iff]
  constructor
  · intro h f hf
    have := h f.1 (List.mem_map_of_mem _ hf)
    simpa using this
  · intro h a ha
    obtain ⟨f, hf, rfl⟩ := List.mem_map.mp ha
    simpa using h f hf

/-- C16: for every structure, every list of valid field names and every error
pointer, `_check_fields` (called, as by every caller, with no unknown field
collected yet) returns TRUE iff every field name of the structure is in the
valid list.  When it returns FALSE and the pointer is not NULL, the error it
stores is the message made of a heading and then, each after a blank, the
structure's field names that are not in the valid list, in field order and as
many times as they are fields (once, for a structure whose field names are
distinct); the message starts with "Unknown property in" when there is one such
field and with "Unknown properties in" when there are more.  With a NULL pointer
nothing is stored. -/
theorem check_fields_spec (struct : GstStructure) (valid : List String) :
    (∀ error : Option (Option GError),
      ((_check_fields struct { fields := valid, invalid_fields := [] } error).1 = true ↔
        ∀ f ∈ struct.fields, f.1 ∈ valid)) ∧
    (∀ error : Option GError,
      (_check_fields struct { fields := valid, invalid_fields := [] } (some error)).1 = false →
      (_check_fields struct { fields := valid, invalid_fields := [] } (some error)).2 =
        some (some (check_fields_msg struct.name (unknown_fields struct valid)))) ∧
    (_check_fields struct { fields := valid, invalid_fields := [] } none).2 = none ∧
    (∃ heading : String,
      check_fields_msg struct.name (unknown_fields struct valid) =
        heading ++ (unknown_fields struct valid).foldr
          (fun field rest => " " ++ field ++ rest) "") ∧
    (unknown_fields struct valid =
      (struct.fields.map (fun f => f.1)).filter (fun field => decide (field ∉ valid))) ∧
    ((struct.fields.map (fun f => f.1)).Nodup → (unknown_fields struct valid).Nodup) ∧
    ((unknown_fields struct valid).length = 1 →
      ∃ rest : String,
        check_fields_msg struct.name (unknown_fields struct valid) =
          "Unknown property in" ++ rest) ∧
    ((unknown_fields struct valid).length > 1 →
      ∃ rest : String,
        check_fields_msg struct.name (unknown_fields struct valid) =
          "Unknown properties in" ++ rest) := by
  refine ⟨?_, ?_, ?_, ?_, rfl, ?_, ?_, ?_⟩
  · intro error
    rw [check_fields_eq, ← unknown_fields_eq_nil]
    by_cases h : unknown_fields struct valid = []
    · simp [h]
    · simp [h]
  · intro error
    rw [check_fields_eq]
    by_cases h : unknown_fields struct valid = []
    · simp [h]
    · simp [h]
  · rw [check_fields_eq]
    by_cases h : unknown_fields struct valid = []
    · simp [h]
    · simp [h]
  · exact ⟨_, check_fields_msg_eq _ _⟩
  · intro h
    exact List.Nodup.filter _ h
  · intro h1
    rw [check_fields_msg_eq, h1]
    have e : "Unknown propert" ++ "y" ++ " in " = "Unknown property in" ++ " " := by decide
    refine ⟨" " ++ (if struct.name.utf8ByteSize > 1 then "--" else "-") ++ struct.name ++ ":" ++
      (unknown_fields struct valid).foldr (fun field rest => " " ++ field ++ rest) "", ?_⟩
    have e2 : ∀ x : String, "Unknown propert" ++ "y" ++ " in " ++ x =
        "Unknown property in" ++ (" " ++ x) := by
      intro x
      rw [e, String.append_assoc]
    simp only [gt_iff_lt, lt_self_iff_false, if_false, String.append_assoc] at e2 ⊢
    exact e2 _
  · intro h1
    rw [check_fields_msg_eq]
    have e : "Unknown propert" ++ "ies" ++ " in " = "Unknown properties in" ++ " " := by
      decide
    refine ⟨" " ++ (if struct.name.utf8ByteSize > 1 then "--" else "-") ++ struct.name ++ ":" ++
      (unknown_fields struct valid).foldr (fun field rest => " " ++ field ++ rest) "", ?_⟩
    have e2 : ∀ x : String, "Unknown propert" ++ "ies" ++ " in " ++ x =
        "Unknown properties in" ++ (" " ++ x) := by
      intro x
      rw [e, String.append_assoc]
    simp only [h1, if_true, String.append_assoc] at e2 ⊢
    exact e2 _

/-- A clip command with two fields that the valid list below does not have. -/
def struct_two_unknown : GstStructure :=
  { name := "set-child-property"
    fields :=
      [("element-name", { g_type := GType.G_TYPE_STRING, content := "clip0" }),
        ("colour", { g_type := GType.G_TYPE_STRING, content := "red" }),
        ("value", { g_type := GType.G_TYPE_DOUBLE, content := "0.5" }),
        ("size", { g_type := GType.G_TYPE_INT, content := "3" })] }

/-- C16 at a structure with the fields element-name, colour, value and size,
checked against the valid list of the child-property command: FALSE, and the
message names colour and size. -/
theorem check_fields_spec_witness :
    (_check_fields struct_two_unknown
      { fields := ["element-name", "property", "value", "project-uri"],
        invalid_fields := [] } (some none)) =
      (false, some (some "Unknown properties in --set-child-property: colour size")) ∧
    (∃ rest : String,
      check_fields_msg struct_two_unknown.name
        (unknown_fields struct_two_unknown
          ["element-name", "property", "value", "project-uri"]) =
        "Unknown properties in" ++ rest) :=
  ⟨by decide,
    (check_fields_spec struct_two_unknown
      ["element-name", "property", "value", "project-uri"]).2.2.2.2.2.2.2 (by decide)⟩

/-! ## C17: the layer at a priority -/

/-- A `gint` is at most `G_MAXINT`. -/
theorem gint_wrap_le (x : Int) : gint_wrap x ≤ G_MAXINT := by
  unfold gint_wrap G_MAXINT
  omega

/-- A value in the range of `gint` is itself as a `gint`. -/
theorem gint_wrap_of_range (x : Int) (h0 : 0 ≤ x) (h1 : x ≤ G_MAXINT) : gint_wrap x = x := by
  unfold gint_wrap
  unfold G_MAXINT at h1
  omega

/-- With `priority = G_MAXINT` the condition `i <= priority` of the loop holds for
every `gint`, so the loop never exits, whatever the fuel. -/
theorem append_layers_loop_maxint (fuel : Nat) (i : Int) (timeline : GESTimeline)
    (layer : Option GESLayer) (hi : i ≤ G_MAXINT) :
    append_layers_loop fuel G_MAXINT i timeline layer = none := by
  induction fuel generalizing i timeline layer with
  | zero => rfl
  | succ fuel ih =>
    unfold append_layers_loop
    rw [if_pos hi]
    exact ih _ _ _ (gint_wrap_le _)

/-- The loop from `i`, the number of layers, up to a priority below `G_MAXINT`:
with `k` layers to append and fuel for `k + 1` tests it exits, having appended
the layers of priorities `i` to `i + k - 1`. -/
theorem append_layers_loop_exits (k : Nat) (fuel : Nat) (priority : Int)
    (timeline : GESTimeline) (layer : Option GESLayer)
    (hk : (timeline.layers.length : Int) + k = priority + 1)
    (hp : priority < G_MAXINT) (hfuel : k + 1 ≤ fuel) :
    append_layers_loop fuel priority timeline.layers.length timeline layer =
      some (if k = 0 then layer else some { priority := timeline.layers.length + k - 1 },
        { layers := timeline.layers ++
            (List.range' timeline.layers.length k).map (fun p => { priority := p }) }) := by
  induction k generalizing fuel timeline layer with
  | zero =>
    obtain ⟨fuel, rfl⟩ : ∃ f, fuel = f + 1 := ⟨fuel - 1, by omega⟩
    unfold append_layers_loop
    have hlt : ¬ (timeline.layers.length : Int) ≤ priority := by omega
    rw [if_neg hlt]
    simp
  | succ k ih =>
    obtain ⟨fuel, rfl⟩ : ∃ f, fuel = f + 1 := ⟨fuel - 1, by omega⟩
    unfold append_layers_loop
    have hle : (timeline.layers.length : Int) ≤ priority := by omega
    rw [if_pos hle]
    have hw : gint_wrap ((timeline.layers.length : Int) + 1) =
        ((ges_timeline_append_layer timeline).2.layers.length : Int) := by
      rw [gint_wrap_of_range _ (by omega) (by omega)]
      simp [ges_timeline_append_layer]
    rw [hw]
    have hlen : (ges_timeline_append_layer timeline).2.layers.length =
        timeline.layers.length + 1 := by
      simp [ges_timeline_append_layer]
    rw [ih fuel (ges_timeline_append_layer timeline).2 _ (by rw [hlen]; push_cast; omega)
      (by omega)]
    rw [hlen]
    have hl : (ges_timeline_append_layer timeline).2.layers =
        timeline.layers ++ [{ priority := timeline.layers.length }] := rfl
    have hfst : (ges_timeline_append_layer timeline).1 =
        { priority := timeline.layers.length } := rfl
    rw [hl, hfst, Option.some.injEq, Prod.mk.injEq]
    constructor
    · by_cases hk0 : k = 0
      · subst hk0
        simp
      · have e : timeline.layers.length + 1 + k - 1 = timeline.layers.length + (k + 1) - 1 := by
          omega
        simp only [hk0, if_false, Nat.succ_ne_zero, e]
    · simp only [List.append_assoc, List.singleton_append, List.range'_succ, List.map_cons]

/-- The layer `ges_timeline_get_layer` finds among layers of consecutive
priorities. -/
theorem find_layer_range (p : Nat) (n off : Nat) :
    ((List.range' off n).map (fun q => ({ priority := q } : GESLayer))).find?
        (fun layer => layer.priority = p) =
      if off ≤ p ∧ p < off + n then some { priority := p } else none := by
  induction n generalizing off with
  | zero =>
    have h : ¬ (off ≤ p ∧ p < off + 0) := by omega
    rw [if_neg h]
    rfl
  | succ n ih =>
    rw [List.range'_succ, List.map_cons, List.find?_cons]
    by_cases h : off = p
    · subst h
      simp
    · have e : (decide (({ priority := off } : GESLayer).priority = p)) = false := by
        simp [h]
      rw [e, ih (off + 1)]
      by_cases h2 : off + 1 ≤ p ∧ p < off + 1 + n
      · have h3 : off ≤ p ∧ p < off + (n + 1) := by omega
        simp [h2, h3]
      · have h3 : ¬ (off ≤ p ∧ p < off + (n + 1)) := by omega
        simp [h2, h3]

/-- What the function does below the last `gint`: on a timeline with
`n <= G_MAXINT` layers and for a priority
below `G_MAXINT`, with `p = max (priority, 0)`: if `p < n`, nothing is appended
and the result is the layer `ges_timeline_get_layer` finds at `p`, which on a
timeline whose layers have the priorities 0 to `n - 1` is the layer of priority
`p`; if `p >= n`, the loop exits (fuel for `p - n + 2` tests of its condition is
enough) having appended exactly the `p - n + 1` layers of priorities `n` to `p`,
so the timeline then has `p + 1` layers, and the result is the last layer
appended, of priority `p`, not NULL. -/
theorem get_layer_by_priority_below_maxint (fuel : Nat) (timeline : GESTimeline)
    (priority : Int) (hn : (timeline.layers.length : Int) ≤ G_MAXINT)
    (hp : priority < G_MAXINT) :
    (max priority 0 < timeline.layers.length →
      _ges_get_layer_by_priority fuel timeline priority =
        some (ges_timeline_get_layer timeline (max priority 0).toNat, timeline)) ∧
    (max priority 0 < timeline.layers.length → timeline_wf timeline →
      ges_timeline_get_layer timeline (max priority 0).toNat =
        some { priority := (max priority 0).toNat }) ∧
    (timeline.layers.length ≤ max priority 0 →
      (max priority 0).toNat - timeline.layers.length + 2 ≤ fuel →
      _ges_get_layer_by_priority fuel timeline priority =
        some (some { priority := (max priority 0).toNat },
          { layers := timeline.layers ++
              (List.range' timeline.layers.length
                ((max priority 0).toNat - timeline.layers.length + 1)).map
                  (fun p => { priority := p }) }) ∧
      (timeline.layers ++
        (List.range' timeline.layers.length
          ((max priority 0).toNat - timeline.layers.length + 1)).map
            (fun p => ({ priority := p } : GESLayer))).length = (max priority 0).toNat + 1) := by
  have hG : G_MAXINT = 2147483647 := rfl
  have hw : gint_wrap ((timeline.layers.length : Int) % 4294967296) =
      (timeline.layers.length : Int) := by
    unfold gint_wrap
    omega
  refine ⟨?_, ?_, ?_⟩
  · intro hlt
    unfold _ges_get_layer_by_priority
    simp only [ges_timeline_get_layers, hw]
    rw [if_neg (by omega)]
  · intro hlt hwf
    unfold ges_timeline_get_layer
    rw [hwf, List.range_eq_range', find_layer_range]
    rw [if_pos (by omega)]
  · intro hge hfuel
    refine ⟨?_, by simp only [List.length_append, List.length_map, List.length_range']; omega⟩
    unfold _ges_get_layer_by_priority
    simp only [ges_timeline_get_layers, hw]
    rw [if_pos (by omega)]
    have h0 : (0 : Int) ≤ max priority 0 := le_max_right _ _
    have hmaxlt : max priority 0 < G_MAXINT := by
      rw [hG]
      rcases max_cases priority 0 with ⟨h, _⟩ | ⟨h, _⟩ <;> omega
    rw [append_layers_loop_exits ((max priority 0).toNat - timeline.layers.length + 1) fuel
      (max priority 0) timeline none (by push_cast; omega) hmaxlt (by omega)]
    have e : timeline.layers.length + ((max priority 0).toNat - timeline.layers.length + 1) - 1 =
        (max priority 0).toNat := by omega
    simp only [Nat.add_one_ne_zero, if_false, e]

/-- With `priority = G_MAXINT` the function has no result whatever the fuel, on
every timeline: the loop is always entered, since no `gint` number of layers
exceeds `G_MAXINT`, and never exits. -/
theorem get_layer_by_priority_maxint (fuel : Nat) (timeline : GESTimeline) :
    _ges_get_layer_by_priority fuel timeline G_MAXINT = none := by
  unfold _ges_get_layer_by_priority
  have hmax : max G_MAXINT 0 = G_MAXINT := by decide
  simp only [hmax]
  rw [if_pos (gint_wrap_le _)]
  exact append_layers_loop_maxint fuel _ timeline none (gint_wrap_le _)

/-- C17 at the failing input: for the priority 2147483647, the largest `gint`,
the function gives no result, whatever the fuel, on any timeline: the condition
`i <= priority` of its loop holds for every `gint` and the increment overflows
after the append at `i = G_MAXINT`, so the loop does not terminate; in
particular on the timeline without layers no amount of fuel gives a result. -/
theorem get_layer_by_priority_no_result :
    (∀ (fuel : Nat) (timeline : GESTimeline),
      _ges_get_layer_by_priority fuel timeline 2147483647 = none) ∧
    ¬ ∃ fuel : Nat,
      (_ges_get_layer_by_priority fuel { layers := [] } 2147483647).isSome = true := by
  have hG : G_MAXINT = 2147483647 := rfl
  have hall : ∀ (fuel : Nat) (timeline : GESTimeline),
      _ges_get_layer_by_priority fuel timeline 2147483647 = none := by
    intro fuel timeline
    have e := get_layer_by_priority_maxint fuel timeline
    rw [hG] at e
    exact e
  refine ⟨hall, ?_⟩
  rintro ⟨fuel, h⟩
  rw [hall fuel] at h
  cases h

/-- A timeline with the two layers of priorities 0 and 1. -/
def timeline_two_layers : GESTimeline :=
  { layers := [{ priority := 0 }, { priority := 1 }] }

/-- The function at the timeline with two layers and the priority 4: the layers
2, 3 and 4 are appended and the layer 4 is returned. -/
theorem get_layer_by_priority_below_maxint_example :
    ((timeline_two_layers.layers.length : Int) ≤ G_MAXINT) ∧ ((4 : Int) < G_MAXINT) ∧
    _ges_get_layer_by_priority 5 timeline_two_layers 4 =
      some (some { priority := 4 },
        { layers := [{ priority := 0 }, { priority := 1 }, { priority := 2 },
          { priority := 3 }, { priority := 4 }] }) :=
  ⟨by decide, by decide,
    ((get_layer_by_priority_below_maxint 5 timeline_two_layers 4 (by decide)
      (by decide)).2.2 (by decide) (by decide)).1⟩

/-! ## C18: the result of the keyframe command -/

/-- A remove-keyframe command with all its mandatory fields and no
"project-uri". -/
def struct_remove_keyframe : GstStructure :=
  { name := "remove-keyframe"
    fields :=
      [("element-name", { g_type := GType.G_TYPE_STRING, content := "video0" }),
        ("property-name", { g_type := GType.G_TYPE_STRING, content := "alpha" }),
        ("timestamp", { g_type := GType.G_TYPE_UINT64, content := "1000000000" }),
        ("value", { g_type := GType.G_TYPE_DOUBLE, content := "0.5" })] }

/-- The same command as add-keyframe. -/
def struct_add_keyframe : GstStructure :=
  { struct_remove_keyframe with name := "add-keyframe" }

/-- A timeline on which the element, its binding and its timed-value control
source are found, and whose control source refuses both to set and to unset a
value at the timestamp. -/
def env_keyframe_refused : KeyframeEnv :=
  { struct_str := "keyframe, element-name=(string)video0;"
    timestamp := some 1000000000
    is_track_element := true
    has_binding := true
    source := some ("GstInterpolationControlSource", true)
    absolute := false
    lookup_child := none
    element_name := "video0"
    transform := true
    set_result := false
    unset_result := false
    time_str := fun _ => "0:00:01.000000000"
    save := (true, none) }

/-- On a structure without a "project-uri" string, `_ges_save_timeline_if_needed`
returns TRUE and leaves the error as it is. -/
theorem save_timeline_not_needed (save : Bool × Option GError) (struct : GstStructure)
    (error : Option GError) (h : gst_structure_get_string struct "project-uri" = none) :
    _ges_save_timeline_if_needed save struct error = (true, error, []) := by
  simp [_ges_save_timeline_if_needed, h]

/-- Whenever `_ges_add_remove_keyframe_from_struct` gets as far as the keyframe
operation (it has made a call) on a structure without a "project-uri" string, it
returns TRUE, whatever the operation returned. -/
theorem add_remove_keyframe_ret (env : KeyframeEnv) (struct : GstStructure)
    (error : Option GError) (h : gst_structure_get_string struct "project-uri" = none) :
    (_ges_add_remove_keyframe_from_struct env struct error).1 = true ∨
      (_ges_add_remove_keyframe_from_struct env struct error).2.2 = [] := by
  unfold _ges_add_remove_keyframe_from_struct
  simp only [save_timeline_not_needed _ _ _ h]
  repeat' split
  all_goals first
    | exact Or.inl rfl
    | exact Or.inr rfl

/-- C18 at the failing inputs: on a timeline whose control source refuses the
operation, the remove-keyframe command returns TRUE although the unset failed
and although it has set the error "Could not unset value for timestamp"; the
add-keyframe command returns TRUE although the set failed. -/
theorem add_remove_keyframe_reports_success :
    _ges_add_remove_keyframe_from_struct env_keyframe_refused struct_remove_keyframe none =
      (true, some "Could not unset value for timestamp: 0:00:01.000000000",
        [TimelineCall.control_source_unset 1000000000 false]) ∧
    _ges_add_remove_keyframe_from_struct env_keyframe_refused struct_add_keyframe none =
      (true, none, [TimelineCall.control_source_set 1000000000 "0.5" false]) := by
  constructor <;> decide

/-! ## C19: the property name of the child-property command -/

/-- The calls of `_ges_save_timeline_if_needed` are saves. -/
theorem save_timeline_calls (save : Bool × Option GError) (struct : GstStructure)
    (error : Option GError) :
    ∀ call ∈ (_ges_save_timeline_if_needed save struct error).2.2,
      ∃ uri result, call = TimelineCall.save_to_uri uri result := by
  unfold _ges_save_timeline_if_needed
  split
  · intro call hc
    exact ⟨_, _, List.mem_singleton.mp hc⟩
  · intro call hc
    cases hc

/-- Every `ges_timeline_element_set_child_property` call of
`_ges_set_child_property_from_struct` passes the name `child_property_name`
gives. -/
theorem set_child_property_calls (env : ChildPropertyEnv) (struct : GstStructure)
    (error : Option GError) :
    ∀ call ∈ (_ges_set_child_property_from_struct env struct error).2.2,
      ∀ (element : Nat) (property_name : String) (value : Option GValue) (result : Bool),
        call = TimelineCall.set_child_property element property_name value result →
          child_property_name struct = some property_name := by
  intro call hc element property_name value result he
  subst he
  unfold _ges_set_child_property_from_struct at hc
  dsimp only at hc
  split_ifs at hc
  · split at hc
    · simp at hc
    · rename_i x pn heq
      split at hc
      · simp at hc
      · split_ifs at hc
        · rcases List.mem_append.mp hc with hc | hc
          · rw [List.mem_singleton] at hc
            injection hc with _ h2
            rw [heq, h2]
          · obtain ⟨uri, r, e⟩ := save_timeline_calls _ _ _ _ hc
            cases e
        · rw [List.mem_singleton] at hc
          injection hc with _ h2
          rw [heq, h2]
        · simp at hc
  · simp at hc

/-- A structure with a field outside the valid list of the child-property
command: the function returns FALSE with the error of the field check and makes
no call. -/
theorem set_child_property_unknown_field (env : ChildPropertyEnv) (struct : GstStructure)
    (error : Option GError)
    (h : unknown_fields struct ["element-name", "property", "value", "project-uri"] ≠ []) :
    _ges_set_child_property_from_struct env struct error =
      (false,
        some (check_fields_msg struct.name
          (unknown_fields struct ["element-name", "property", "value", "project-uri"])),
        []) := by
  unfold _ges_set_child_property_from_struct
  simp only [check_fields_eq]
  simp [h]

/-- A structure whose fields are all valid and that gives no property name: the
function returns FALSE with the error "Could not find any property name in" and
makes no call. -/
theorem set_child_property_no_name (env : ChildPropertyEnv) (struct : GstStructure)
    (error : Option GError)
    (h : unknown_fields struct ["element-name", "property", "value", "project-uri"] = [])
    (hn : child_property_name struct = none) :
    _ges_set_child_property_from_struct env struct error =
      (false, some ("Could not find any property name in " ++ env.struct_str), []) := by
  unfold _ges_set_child_property_from_struct
  simp only [check_fields_eq]
  simp [h, hn]

/-- C19, as stated, fails: the structure `child-property, colour=red` has no
"property" field and its name does not start with "set-", yet the error is not
the "Could not find any property name" one: the field check fails first, with
"Unknown property in --child-property: colour". -/
theorem set_child_property_counterexample :
    gst_structure_get_string
      { name := "child-property",
        fields := [("colour", { g_type := GType.G_TYPE_STRING, content := "red" })] }
      "property" = none ∧
    g_str_has_prefix "child-property" "set-" = false ∧
    (∀ env : ChildPropertyEnv,
      _ges_set_child_property_from_struct env
        { name := "child-property",
          fields := [("colour", { g_type := GType.G_TYPE_STRING, content := "red" })] }
        none =
      (false, some "Unknown property in --child-property: colour", [])) ∧
    g_str_has_prefix "Unknown property in --child-property: colour"
      "Could not find any property name" = false := by
  refine ⟨by decide, by decide, ?_, by decide⟩
  intro env
  rw [set_child_property_unknown_field env _ none (by decide)]
  decide

/-- C19, amended: in `_ges_set_child_property_from_struct`, every
`ges_timeline_element_set_child_property` call made passes as property name the
structure's "property" string field when there is one, and otherwise, when the
structure's name starts with "set-", the name without its first four characters;
when there is no "property" string field and the name does not start with
"set-", the function returns FALSE and makes no call, and its error is
"Could not find any property name in" followed by the structure when all the
fields of the structure are among element-name, property, value and project-uri,
and the error of the field check otherwise. -/
theorem set_child_property_name (env : ChildPropertyEnv) (struct : GstStructure)
    (error : Option GError) :
    (∀ (element : Nat) (property_name : String) (value : Option GValue) (result : Bool),
      TimelineCall.set_child_property element property_name value result ∈
        (_ges_set_child_property_from_struct env struct error).2.2 →
      child_property_name struct = some property_name) ∧
    (∀ property_name : String,
      gst_structure_get_string struct "property" = some property_name →
        child_property_name struct = some property_name) ∧
    (gst_structure_get_string struct "property" = none →
      g_str_has_prefix struct.name "set-" = true →
        child_property_name struct = some (str_offset struct.name 4)) ∧
    (gst_structure_get_string struct "property" = none →
      g_str_has_prefix struct.name "set-" = false →
        (_ges_set_child_property_from_struct env struct error).1 = false ∧
        (_ges_set_child_property_from_struct env struct error).2.2 = [] ∧
        ((∀ f ∈ struct.fields, f.1 ∈ ["element-name", "property", "value", "project-uri"]) →
          _ges_set_child_property_from_struct env struct error =
            (false, some ("Could not find any property name in " ++ env.struct_str), [])) ∧
        ((¬ ∀ f ∈ struct.fields, f.1 ∈ ["element-name", "property", "value", "project-uri"]) →
          _ges_set_child_property_from_struct env struct error =
            (false,
              some (check_fields_msg struct.name
                (unknown_fields struct ["element-name", "property", "value", "project-uri"])),
              []))) := by
  refine ⟨?_, ?_, ?_, ?_⟩
  · intro element property_name value result hc
    exact set_child_property_calls env struct error _ hc element property_name value result rfl
  · intro property_name h
    simp [child_property_name, h]
  · intro h hp
    simp [child_property_name, h, hp]
  · intro h hp
    have hn : child_property_name struct = none := by
      simp [child_property_name, h, hp]
    have hvalid : (∀ f ∈ struct.fields,
        f.1 ∈ ["element-name", "property", "value", "project-uri"]) →
        _ges_set_child_property_from_struct env struct error =
          (false, some ("Could not find any property name in " ++ env.struct_str), []) :=
      fun hv => set_child_property_no_name env struct error
        ((unknown_fields_eq_nil struct _).mpr hv) hn
    have hinvalid : (¬ ∀ f ∈ struct.fields,
        f.1 ∈ ["element-name", "property", "value", "project-uri"]) →
        _ges_set_child_property_from_struct env struct error =
          (false,
            some (check_fields_msg struct.name
              (unknown_fields struct ["element-name", "property", "value", "project-uri"])),
            []) :=
      fun hv => set_child_property_unknown_field env struct error
        (fun e => hv ((unknown_fields_eq_nil struct _).mp e))
    by_cases hv : ∀ f ∈ struct.fields,
        f.1 ∈ ["element-name", "property", "value", "project-uri"]
    · rw [hvalid hv]
      exact ⟨rfl, rfl, fun _ => rfl, fun hnv => absurd hv hnv⟩
    · rw [hinvalid hv]
      exact ⟨rfl, rfl, fun hv2 => absurd hv2 hv, fun _ => rfl⟩

/-- A timeline on which the element `clip0` is found at address 1 and has the
child property asked for. -/
def env_child_property : ChildPropertyEnv :=
  { struct_str := "set-volume, element-name=(string)clip0, value=(double)0.5;"
    last_child := none
    get_element := fun name => if name = "clip0" then some 1 else none
    lookup_child := fun _ _ => true
    last_container := none
    is_timeline_element := fun _ => true
    set_child_property := fun _ _ _ => true
    children_properties := fun _ => ["volume", "mute"]
    element_name := fun _ => "clip0"
    save := (true, none) }

/-- The command `set-volume, element-name=clip0, value=0.5`. -/
def struct_set_volume : GstStructure :=
  { name := "set-volume"
    fields :=
      [("element-name", { g_type := GType.G_TYPE_STRING, content := "clip0" }),
        ("value", { g_type := GType.G_TYPE_DOUBLE, content := "0.5" })] }

/-- C19, amended, at the command `set-volume, element-name=clip0, value=0.5`:
there is no "property" field, the name starts with "set-", and the property set
is "volume". -/
theorem set_child_property_name_witness :
    gst_structure_get_string struct_set_volume "property" = none ∧
    g_str_has_prefix struct_set_volume.name "set-" = true ∧
    child_property_name struct_set_volume = some "volume" ∧
    _ges_set_child_property_from_struct env_child_property struct_set_volume none =
      (true, none,
        [TimelineCall.set_child_property 1 "volume"
          (some { g_type := GType.G_TYPE_DOUBLE, content := "0.5" }) true]) := by
  refine ⟨by decide, by decide, ?_, by decide⟩
  rw [(set_child_property_name env_child_property struct_set_volume none).2.2.1
    (by decide) (by decide)]
  decide

end GES
